import Mathlib

/-!
# RegionImplFactory

A shallow embedding of `src/nupic/engine/RegionImplFactory.cpp` and the
properties of its type resolution, spec cache, registry and Python bridge
loader.

Conventions of the embedding

* A `std::string` is the list of its characters, and a `const char *` that the
  program stores (an element of `packages`) is the list of the characters of
  the C string it points to.  Reading a `std::string` through `c_str()` is
  `cstr`, truncation at the first NUL character.
* The file-level statics `packages`, `cpp_packages` and the members
  `nodespecCache_`, `pyLib_` of the singleton make up `Factory`.
* Everything outside the translation unit (the operating system, the dynamic
  loader, the loaded pynode library, the registered region wrappers and the
  YAML parser) is a field of `World`; an operation receives the world it runs
  in, so different calls may see different worlds.
* Every operation returns an `Outcome`: the value or the exception, the
  factory state left behind, and the trace of external effects it performed.
-/

namespace RegionImplFactory

/-! ## Strings -/

/-- A `std::string` (or the contents of a `const char *`). -/
abbrev CppString := List Char

/-- The NUL character that terminates a C string. -/
def NUL : Char := Char.ofNat 0

/-- Contents of a NUL-terminated buffer: the characters before the first NUL. -/
def cstr (s : CppString) : CppString := s.takeWhile (fun c => c != NUL)

/-- The marker `"py."`. -/
def pyMarker : CppString := ['p', 'y', '.']

/-- Value of `std::string::find(pat)`: index of the first occurrence, `none` for `npos`. -/
def strFind : CppString → CppString → Option Nat
  | [], pat => if pat.isPrefixOf [] then some 0 else none
  | c :: s, pat =>
    if pat.isPrefixOf (c :: s) then some 0 else (strFind s pat).map (fun i => i + 1)

/-- Value of `s.substr(0, n)`. -/
def substr0 (s : CppString) (n : Nat) : CppString := s.take n

/-- Modelled from the spec: `StringUtils::startsWith`, which `deserializeRegionImpl`
calls and `StringUtils.hpp` declares, is not part of this file; by the
specification the foreign-origin convention is a fixed marker prefix, so the
call is the test whether `s` begins with `pre`. -/
def startsWith (s pre : CppString) : Bool := pre.isPrefixOf s

/-! ## `std::map` with string keys -/

/-- A `std::map<std::string, V>`: key/value pairs, kept in key order by `insert`. -/
abbrev StrMap (V : Type) := List (CppString × V)

namespace StrMap

/-- Value of `m.find(k)`: the mapped value, `none` for `end()`. -/
def find {V : Type} : StrMap V → CppString → Option V
  | [], _ => none
  | (k', v) :: rest, k => if k' = k then some v else find rest k

/-- Effect of `m[k] = v`: overwrite the entry of `k` or insert one at its place in key order. -/
def insert {V : Type} : StrMap V → CppString → V → StrMap V
  | [], k, v => [(k, v)]
  | (k', v') :: rest, k, v =>
    if k < k' then (k, v) :: (k', v') :: rest
    else if k' = k then (k, v) :: rest
    else (k', v') :: insert rest k v

end StrMap

/-! ## Handles and external effects -/

/-- A non-null `Spec *`. -/
abbrev SpecPtr := Nat
/-- A `RegionImpl *` handed back to the caller. -/
abbrev ImplPtr := Nat
/-- A `GenericRegisteredRegionImpl *` pointing to a wrapper object. -/
abbrev ProvPtr := Nat
/-- A `ValueMap` produced by the YAML parser. -/
abbrev ValueMap := Nat
/-- A `BundleIO`. -/
abbrev BundleIO := Nat
/-- A loaded `DynamicLibrary *`. -/
abbrev LibPtr := Nat
/-- The address of a symbol of a loaded library. -/
abbrev FnPtr := Nat

/-- The owning `Region`: its identity and the value of `getName()`. -/
structure Region where
  id : Nat
  name : CppString
deriving DecidableEq, Repr

/-- The exceptions of this translation unit, one per throw site, and the two
undefined behaviours it can run into. -/
inductive Err where
  /-- Thrown at line 91: `Unable to find NuPIC library in <rootDir>`. -/
  | nupicLibraryNotFound (rootDir : CppString)
  /-- Thrown at line 103: `Unable to find library <libName>`. -/
  | libraryNotFound (libName : CppString)
  /-- Thrown at line 126: `Unable to load the pynode library: <errorString>`. -/
  | unableToLoad (errorString : CppString)
  /-- Thrown by the checks of lines 131 to 146: `Unable to find <symbol> symbol in <filename>`. -/
  | symbolNotFound (symbol : CppString) (filename : CppString)
  /-- Thrown at line 245: `Unable to create region <region> of type <nodeType>`. -/
  | unableToCreateRegion (regionName : CppString) (nodeType : CppString)
  /-- Thrown at line 270: `Unable to deserialize region <region> of type <nodeType>`. -/
  | unableToDeserializeRegion (regionName : CppString) (nodeType : CppString)
  /-- Thrown at lines 302 and 328: `Unsupported node type <nodeType>`. -/
  | unsupportedNodeType (nodeType : CppString)
  /-- Thrown at line 355: `Matching Python module for <nodeType> not found.` -/
  | pythonModuleNotFound (nodeType : CppString)
  /-- Thrown at line 382: `getSpec() -- Unsupported node type <nodeType>`. -/
  | getSpecUnsupportedNodeType (nodeType : CppString)
  /-- Thrown at line 386: `Unable to get node spec for: <nodeType>`. -/
  | unableToGetNodeSpec (nodeType : CppString)
  /-- An exception raised by an external collaborator (wrapper or YAML parser). -/
  | external (code : Nat)
  /-- Undefined behaviour: `pyLib_->` on an empty `shared_ptr`. -/
  | nullPyLib
  /-- Undefined behaviour: call through a null function pointer. -/
  | nullFunctionPointer (symbol : CppString)
deriving DecidableEq, Repr

/-- The external effects an operation can perform, in the order of the trace. -/
inductive Event where
  | executeCommand (command : CppString)
  | load (libName : CppString) (mode : Nat)
  | getSymbol (symbol : CppString)
  | initPython
  | finalizePython
  | bridgeCreateSpec (fullNodeType : CppString)
  | bridgeDestroySpec (nodeType : CppString)
  | bridgeCreatePyNode (fullNodeType : CppString) (nodeParams : ValueMap) (region : Nat)
  | bridgeDeserializePyNode (fullNodeType : CppString) (bundle : BundleIO) (region : Nat)
  | wrapperCreateSpec (wrapper : ProvPtr)
  | wrapperCreateRegionImpl (wrapper : ProvPtr) (nodeParams : ValueMap) (region : Nat)
  | wrapperDeserializeRegionImpl (wrapper : ProvPtr) (bundle : BundleIO) (region : Nat)
  | toValueMap (nodeParams : CppString) (spec : SpecPtr)
  | deleteSpec (spec : SpecPtr)
  | deleteWrapper (wrapper : ProvPtr)
deriving DecidableEq, Repr

/-- Everything the translation unit calls but does not define. -/
structure World where
  /-- Whether `NTA_OS_WINDOWS` is defined. -/
  windows : Bool
  /-- Value of `OS::executeCommand`. -/
  executeCommand : CppString → CppString
  /-- Value of `Path::exists`. -/
  pathExists : CppString → Bool
  /-- Value of `Path::join(a, b, c)`. -/
  pathJoin : CppString → CppString → CppString → CppString
  /-- The enumerators `DynamicLibrary::LAZY`, `GLOBAL`, `LOCAL`, `NOW`. -/
  LAZY : Nat
  GLOBAL : Nat
  LOCAL : Nat
  NOW : Nat
  /-- Value of `DynamicLibrary::load`: the library, or the error string with a null result. -/
  dlLoad : CppString → Nat → Except CppString LibPtr
  /-- Value of `DynamicLibrary::getSymbol`: `none` for a null result. -/
  getSymbol : LibPtr → CppString → Option FnPtr
  /-- The function behind `NTA_createSpec`; `none` for a null result. -/
  pyCreateSpec : CppString → Option SpecPtr
  /-- The function behind `NTA_destroySpec`. -/
  pyDestroySpec : CppString → Int
  /-- The function behind `NTA_createPyNode`; `none` for a null result. -/
  pyCreatePyNode : CppString → ValueMap → Region → Option ImplPtr
  /-- The function behind `NTA_deserializePyNode`; `none` for a null result. -/
  pyDeserializePyNode : CppString → BundleIO → Region → Option ImplPtr
  /-- Value of `wrapper->createSpec()`; `ok none` for a null result. -/
  wrapperCreateSpec : ProvPtr → Except Err (Option SpecPtr)
  /-- Value of `wrapper->createRegionImpl(vm, region)`. -/
  wrapperCreateRegionImpl : ProvPtr → ValueMap → Region → Except Err ImplPtr
  /-- Value of `wrapper->deserializeRegionImpl(bundle, region)`. -/
  wrapperDeserializeRegionImpl : ProvPtr → BundleIO → Region → Except Err ImplPtr
  /-- Value of `YAMLUtils::toValueMap(nodeParams, ns->parameters, nodeType, regionName)`. -/
  toValueMap : CppString → SpecPtr → CppString → CppString → Except Err ValueMap
  /-- The objects allocated by `getInstance` for the three built-in regions. -/
  newTestNode : ProvPtr
  newVectorFileEffector : ProvPtr
  newVectorFileSensor : ProvPtr

/-! ## `DynamicPythonLibrary` -/

/-- The members of `DynamicPythonLibrary`; a function pointer is `none` when null. -/
structure DynamicPythonLibrary where
  rootDir_ : CppString
  pynodeLibrary_ : LibPtr
  initPython_ : Option FnPtr
  finalizePython_ : Option FnPtr
  createSpec_ : Option FnPtr
  destroySpec_ : Option FnPtr
  createPyNode_ : Option FnPtr
  deserializePyNode_ : Option FnPtr
deriving DecidableEq, Repr

deriving instance DecidableEq for Except

/-- Result of running a piece of the program from a factory state of type `σ`. -/
structure Outcome (σ α : Type) where
  res : Except Err α
  st : σ
  log : List Event
deriving DecidableEq

/-- The command of lines 85 and 87. -/
def pythonCommand (windows : Bool) : CppString :=
  if windows then
    "python -c \"import sys;import os;import nupic;sys.stdout.write(os.path.abspath(os.path.join(nupic.__file__, \"\"../..\"\")))\"".toList
  else
    "python -c 'import sys;import os;import nupic;sys.stdout.write(os.path.abspath(os.path.join(nupic.__file__, \"../..\")))'".toList

/-- The file name of lines 95 and 97. -/
def pynodeFilename (windows : Bool) : CppString :=
  if windows then "cpp_region.dll".toList else "libcpp_region.so".toList

/-- The mode argument of `DynamicLibrary::load` at lines 116 to 124. -/
def loadMode (w : World) : Nat := w.GLOBAL ||| w.LAZY

namespace DynamicPythonLibrary

/-- Lines 130 to 148 of the constructor: the six symbol lookups with their
checks, then the call of `initPython_`.  The check after the lookup of
`NTA_deserializePyNode` tests `createPyNode_`, as line 140 does. -/
def bindSymbols (w : World) (rootDir : CppString) (p : LibPtr) :
    Except Err DynamicPythonLibrary × List Event :=
  let filename := pynodeFilename w.windows
  let sInit := "NTA_initPython".toList
  let sFinalize := "NTA_finalizePython".toList
  let sCreatePyNode := "NTA_createPyNode".toList
  let sDeserialize := "NTA_deserializePyNode".toList
  let sCreateSpec := "NTA_createSpec".toList
  let sDestroySpec := "NTA_destroySpec".toList
  let initPython := w.getSymbol p sInit
  let log1 := [Event.getSymbol sInit]
  if initPython.isNone then (.error (.symbolNotFound sInit filename), log1) else
  let finalizePython := w.getSymbol p sFinalize
  let log2 := log1 ++ [Event.getSymbol sFinalize]
  if finalizePython.isNone then (.error (.symbolNotFound sFinalize filename), log2) else
  let createPyNode := w.getSymbol p sCreatePyNode
  let log3 := log2 ++ [Event.getSymbol sCreatePyNode]
  if createPyNode.isNone then (.error (.symbolNotFound sCreatePyNode filename), log3) else
  let deserializePyNode := w.getSymbol p sDeserialize
  let log4 := log3 ++ [Event.getSymbol sDeserialize]
  if createPyNode.isNone then (.error (.symbolNotFound sCreatePyNode filename), log4) else
  let createSpec := w.getSymbol p sCreateSpec
  let log5 := log4 ++ [Event.getSymbol sCreateSpec]
  if createSpec.isNone then (.error (.symbolNotFound sCreateSpec filename), log5) else
  let destroySpec := w.getSymbol p sDestroySpec
  let log6 := log5 ++ [Event.getSymbol sDestroySpec]
  if destroySpec.isNone then (.error (.symbolNotFound sDestroySpec filename), log6) else
  (.ok { rootDir_ := rootDir, pynodeLibrary_ := p, initPython_ := initPython,
         finalizePython_ := finalizePython, createSpec_ := createSpec,
         destroySpec_ := destroySpec, createPyNode_ := createPyNode,
         deserializePyNode_ := deserializePyNode },
   log6 ++ [Event.initPython])

/-- The constructor `DynamicPythonLibrary()`, lines 75 to 149. -/
def new (w : World) : Except Err DynamicPythonLibrary × List Event :=
  let command := pythonCommand w.windows
  let rootDir := w.executeCommand command
  let log0 := [Event.executeCommand command]
  if !w.pathExists rootDir then (.error (.nupicLibraryNotFound rootDir), log0) else
  let filename := pynodeFilename w.windows
  let libName := w.pathJoin rootDir "nupic".toList filename
  if !w.pathExists libName then (.error (.libraryNotFound libName), log0) else
  let log1 := log0 ++ [Event.load libName (loadMode w)]
  match w.dlLoad libName (loadMode w) with
  | .error errorString => (.error (.unableToLoad errorString), log1)
  | .ok p =>
    let r := bindSymbols w rootDir p
    (r.1, log1 ++ r.2)

/-- The method `createSpec`, lines 158 to 162. -/
def createSpec (lib : DynamicPythonLibrary) (w : World) (nodeType : CppString) :
    Except Err (Option SpecPtr) × List Event :=
  match lib.createSpec_ with
  | none => (.error (.nullFunctionPointer "NTA_createSpec".toList), [])
  | some _ => (.ok (w.pyCreateSpec (cstr nodeType)), [Event.bridgeCreateSpec (cstr nodeType)])

/-- The method `destroySpec`, lines 164 to 168. -/
def destroySpec (lib : DynamicPythonLibrary) (w : World) (nodeType : CppString) :
    Except Err Int × List Event :=
  match lib.destroySpec_ with
  | none => (.error (.nullFunctionPointer "NTA_destroySpec".toList), [])
  | some _ => (.ok (w.pyDestroySpec (cstr nodeType)), [Event.bridgeDestroySpec (cstr nodeType)])

/-- The method `createPyNode`, lines 170 to 181. -/
def createPyNode (lib : DynamicPythonLibrary) (w : World) (nodeType : CppString)
    (nodeParams : ValueMap) (region : Region) : Except Err (Option ImplPtr) × List Event :=
  match lib.createPyNode_ with
  | none => (.error (.nullFunctionPointer "NTA_createPyNode".toList), [])
  | some _ => (.ok (w.pyCreatePyNode (cstr nodeType) nodeParams region),
               [Event.bridgeCreatePyNode (cstr nodeType) nodeParams region.id])

/-- The method `deserializePyNode`, lines 183 to 193. -/
def deserializePyNode (lib : DynamicPythonLibrary) (w : World) (nodeType : CppString)
    (bundle : BundleIO) (region : Region) : Except Err (Option ImplPtr) × List Event :=
  match lib.deserializePyNode_ with
  | none => (.error (.nullFunctionPointer "NTA_deserializePyNode".toList), [])
  | some _ => (.ok (w.pyDeserializePyNode (cstr nodeType) bundle region),
               [Event.bridgeDeserializePyNode (cstr nodeType) bundle region.id])

end DynamicPythonLibrary

/-! ## The factory -/

/-- The statics `packages` and `cpp_packages` and the members `nodespecCache_`
and `pyLib_` of the singleton. -/
structure Factory where
  packages : List CppString
  cpp_packages : StrMap ProvPtr
  nodespecCache_ : StrMap SpecPtr
  pyLib_ : Option DynamicPythonLibrary
deriving DecidableEq

/-- The state at program start: the initialiser of `packages` at line 50, empty maps, no library. -/
def Factory.initial : Factory :=
  { packages := ["nupic.regions".toList, "nupic.regions.extra".toList],
    cpp_packages := [],
    nodespecCache_ := [],
    pyLib_ := none }

/-- `RegionImplFactory::registerCPPRegion`, lines 55 to 58. -/
def registerCPPRegion (s : Factory) (name : CppString) (wrapper : ProvPtr) : Factory :=
  { s with cpp_packages := s.cpp_packages.insert name wrapper }

/-- `RegionImplFactory::registerPyRegionPackage`, lines 61 to 64. -/
def registerPyRegionPackage (s : Factory) (path : CppString) : Factory :=
  { s with packages := s.packages ++ [path] }

/-- `RegionImplFactory::getInstance`, lines 211 to 222. -/
def getInstance (w : World) (s : Factory) : Factory :=
  if s.cpp_packages.isEmpty then
    let m := s.cpp_packages.insert "TestNode".toList w.newTestNode
    let m := m.insert "VectorFileEffector".toList w.newVectorFileEffector
    let m := m.insert "VectorFileSensor".toList w.newVectorFileSensor
    { s with cpp_packages := m }
  else s

/-- The module path built at lines 234 to 237 (and 260 to 263, 343 to 346):
the package, a dot when the package is not empty, and the C string that starts
at the fourth character of the node type. -/
def fullNodeType (package nodeType : CppString) : CppString :=
  let full := package
  let full := if !full.isEmpty then full ++ ['.'] else full
  full ++ cstr (nodeType.drop 3)

/-- The static function `createPyNode`, lines 225 to 247, over the packages still to try. -/
def createPyNode (pyLib : DynamicPythonLibrary) (w : World) (nodeType : CppString)
    (nodeParams : ValueMap) (region : Region) :
    List CppString → Except Err ImplPtr × List Event
  | [] => (.error (.unableToCreateRegion region.name nodeType), [])
  | package :: rest =>
    match pyLib.createPyNode w (fullNodeType package nodeType) nodeParams region with
    | (.error e, l) => (.error e, l)
    | (.ok (some node), l) => (.ok node, l)
    | (.ok none, l) =>
      let r := createPyNode pyLib w nodeType nodeParams region rest
      (r.1, l ++ r.2)

/-- The static function `deserializePyNode`, lines 250 to 275, over the packages still to try. -/
def deserializePyNode (pyLib : DynamicPythonLibrary) (w : World) (nodeType : CppString)
    (bundle : BundleIO) (region : Region) :
    List CppString → Except Err ImplPtr × List Event
  | [] => (.error (.unableToDeserializeRegion region.name nodeType), [])
  | package :: rest =>
    match pyLib.deserializePyNode w (fullNodeType package nodeType) bundle region with
    | (.error e, l) => (.error e, l)
    | (.ok (some node), l) => (.ok node, l)
    | (.ok none, l) =>
      let r := deserializePyNode pyLib w nodeType bundle region rest
      (r.1, l ++ r.2)

/-- The static function `getPySpec`, lines 335 to 356, over the packages still to try. -/
def getPySpec (pyLib : DynamicPythonLibrary) (w : World) (nodeType : CppString) :
    List CppString → Except Err SpecPtr × List Event
  | [] => (.error (.pythonModuleNotFound nodeType), [])
  | package :: rest =>
    match pyLib.createSpec w (fullNodeType package nodeType) with
    | (.error e, l) => (.error e, l)
    | (.ok (some ns), l) => (.ok ns, l)
    | (.ok none, l) =>
      let r := getPySpec pyLib w nodeType rest
      (r.1, l ++ r.2)

/-- The statement `if (!pyLib_) pyLib_ = shared_ptr(new DynamicPythonLibrary())`
of lines 296, 322 and 375; the value is the library `pyLib_.get()` then points to. -/
def ensurePyLib (w : World) (s : Factory) : Outcome Factory DynamicPythonLibrary :=
  match s.pyLib_ with
  | some lib => ⟨.ok lib, s, []⟩
  | none =>
    match DynamicPythonLibrary.new w with
    | (.error e, l) => ⟨.error e, s, l⟩
    | (.ok lib, l) => ⟨.ok lib, { s with pyLib_ := some lib }, l⟩

/-- `RegionImplFactory::getSpec`, lines 358 to 390. -/
def getSpec (w : World) (s : Factory) (nodeType : CppString) : Outcome Factory SpecPtr :=
  match s.nodespecCache_.find nodeType with
  | some ns => ⟨.ok ns, s, []⟩
  | none =>
    match s.cpp_packages.find nodeType with
    | some wrapper =>
      match w.wrapperCreateSpec wrapper with
      | .error e => ⟨.error e, s, [Event.wrapperCreateSpec wrapper]⟩
      | .ok none => ⟨.error (.unableToGetNodeSpec nodeType), s, [Event.wrapperCreateSpec wrapper]⟩
      | .ok (some ns) =>
        ⟨.ok ns, { s with nodespecCache_ := s.nodespecCache_.insert nodeType ns },
         [Event.wrapperCreateSpec wrapper]⟩
    | none =>
      if strFind nodeType pyMarker = some 0 then
        let o := ensurePyLib w s
        match o.res with
        | .error e => ⟨.error e, o.st, o.log⟩
        | .ok lib =>
          let r := getPySpec lib w nodeType o.st.packages
          match r.1 with
          | .error e => ⟨.error e, o.st, o.log ++ r.2⟩
          | .ok ns =>
            ⟨.ok ns, { o.st with nodespecCache_ := o.st.nodespecCache_.insert nodeType ns },
             o.log ++ r.2⟩
      else ⟨.error (.getSpecUnsupportedNodeType nodeType), s, []⟩

/-- `RegionImplFactory::createRegionImpl`, lines 277 to 307. -/
def createRegionImpl (w : World) (s : Factory) (nodeType nodeParams : CppString)
    (region : Region) : Outcome Factory ImplPtr :=
  let g := getSpec w s nodeType
  match g.res with
  | .error e => ⟨.error e, g.st, g.log⟩
  | .ok ns =>
    let log1 := g.log ++ [Event.toValueMap nodeParams ns]
    match w.toValueMap nodeParams ns nodeType region.name with
    | .error e => ⟨.error e, g.st, log1⟩
    | .ok vm =>
      match g.st.cpp_packages.find nodeType with
      | some wrapper =>
        ⟨w.wrapperCreateRegionImpl wrapper vm region, g.st,
         log1 ++ [Event.wrapperCreateRegionImpl wrapper vm region.id]⟩
      | none =>
        if strFind nodeType pyMarker = some 0 then
          let o := ensurePyLib w g.st
          match o.res with
          | .error e => ⟨.error e, o.st, log1 ++ o.log⟩
          | .ok lib =>
            let r := createPyNode lib w nodeType vm region o.st.packages
            ⟨r.1, o.st, log1 ++ o.log ++ r.2⟩
        else ⟨.error (.unsupportedNodeType nodeType), g.st, log1⟩

/-- `RegionImplFactory::deserializeRegionImpl`, lines 309 to 332. -/
def deserializeRegionImpl (w : World) (s : Factory) (nodeType : CppString)
    (bundle : BundleIO) (region : Region) : Outcome Factory ImplPtr :=
  match s.cpp_packages.find nodeType with
  | some wrapper =>
    ⟨w.wrapperDeserializeRegionImpl wrapper bundle region, s,
     [Event.wrapperDeserializeRegionImpl wrapper bundle region.id]⟩
  | none =>
    if startsWith nodeType pyMarker then
      let o := ensurePyLib w s
      match o.res with
      | .error e => ⟨.error e, o.st, o.log⟩
      | .ok lib =>
        let r := deserializePyNode lib w nodeType bundle region o.st.packages
        ⟨r.1, o.st, o.log ++ r.2⟩
    else ⟨.error (.unsupportedNodeType nodeType), s, []⟩

/-- The loop of lines 396 to 410 of `cleanup` over the entries of the spec
cache: an entry whose key has the first three characters `py.` goes to
`pyLib_->destroySpec`, every other entry is deleted. -/
def destroyNodespecs (w : World) (pyLib : Option DynamicPythonLibrary) :
    StrMap SpecPtr → Except Err Unit × List Event
  | [] => (.ok (), [])
  | (first, second) :: rest =>
    if substr0 first 3 = pyMarker then
      match pyLib with
      | none => (.error .nullPyLib, [])
      | some lib =>
        match lib.destroySpec w first with
        | (.error e, l) => (.error e, l)
        | (.ok _, l) =>
          let r := destroyNodespecs w pyLib rest
          (r.1, l ++ r.2)
    else
      let r := destroyNodespecs w pyLib rest
      (r.1, Event.deleteSpec second :: r.2)

/-- The loop of lines 415 to 420 of `cleanup` over the registered wrappers. -/
def destroyWrappers (m : StrMap ProvPtr) : List Event :=
  m.map (fun rri => Event.deleteWrapper rri.2)

/-- `RegionImplFactory::cleanup`, lines 392 to 428.  When the first loop runs
into undefined behaviour the outcome keeps the state it started from. -/
def cleanup (w : World) (s : Factory) : Outcome Factory Unit :=
  match destroyNodespecs w s.pyLib_ s.nodespecCache_ with
  | (.error e, l) => ⟨.error e, s, l⟩
  | (.ok _, l) =>
    ⟨.ok (), { s with nodespecCache_ := [], cpp_packages := [] },
     l ++ destroyWrappers s.cpp_packages⟩

/-! ## Sequences of calls -/

/-- A call into the factory. -/
inductive Op where
  | getInstance
  | registerCPPRegion (name : CppString) (wrapper : ProvPtr)
  | registerPyRegionPackage (path : CppString)
  | getSpec (nodeType : CppString)
  | createRegionImpl (nodeType nodeParams : CppString) (region : Region)
  | deserializeRegionImpl (nodeType : CppString) (bundle : BundleIO) (region : Region)
  | cleanup

/-- Whether an exception value stands for undefined behaviour. -/
def Err.isUB : Err → Bool
  | .nullPyLib => true
  | .nullFunctionPointer _ => true
  | _ => false

/-- One call: the state it leaves, its trace, and whether it ran into undefined behaviour. -/
def step (w : World) (s : Factory) : Op → Factory × List Event × Bool
  | .getInstance => (getInstance w s, [], false)
  | .registerCPPRegion name wrapper => (registerCPPRegion s name wrapper, [], false)
  | .registerPyRegionPackage path => (registerPyRegionPackage s path, [], false)
  | .getSpec nodeType =>
    let o := getSpec w s nodeType
    (o.st, o.log, match o.res with | .error e => e.isUB | .ok _ => false)
  | .createRegionImpl nodeType nodeParams region =>
    let o := createRegionImpl w s nodeType nodeParams region
    (o.st, o.log, match o.res with | .error e => e.isUB | .ok _ => false)
  | .deserializeRegionImpl nodeType bundle region =>
    let o := deserializeRegionImpl w s nodeType bundle region
    (o.st, o.log, match o.res with | .error e => e.isUB | .ok _ => false)
  | .cleanup =>
    let o := cleanup w s
    (o.st, o.log, match o.res with | .error e => e.isUB | .ok _ => false)

/-- A sequence of calls, each in its own world; the run stops at undefined behaviour. -/
def run (s : Factory) : List (World × Op) → Factory × List Event
  | [] => (s, [])
  | (w, op) :: rest =>
    match step w s op with
    | (s1, l, true) => (s1, l)
    | (s1, l, false) =>
      let r := run s1 rest
      (r.1, l ++ r.2)

/-- The states the factory can be in when every call runs in a world that
satisfies `P`: the initial one and every state a call that did not run into
undefined behaviour leaves. -/
inductive Reachable (P : World → Prop) : Factory → Prop where
  | initial : Reachable P Factory.initial
  | step {s : Factory} (w : World) (op : Op) :
      Reachable P s → P w → (step w s op).2.2 = false → Reachable P (step w s op).1

/-- What holds of every reachable state: a cached spec belongs to a registered
name or to a name with the marker that some package resolved, and an
existing library has the entry points its constructor checked. -/
def Factory.Inv (P : World → Prop) (s : Factory) : Prop :=
  (∀ t ns, s.nodespecCache_.find t = some ns →
    (s.cpp_packages.find t).isSome = true ∨
    (strFind t pyMarker = some 0 ∧
      ∃ w, P w ∧ ∃ p ∈ s.packages, w.pyCreateSpec (cstr (fullNodeType p t)) = some ns)) ∧
  (∀ lib, s.pyLib_ = some lib →
    lib.createSpec_.isSome = true ∧ lib.createPyNode_.isSome = true ∧
    lib.destroySpec_.isSome = true)

/-! ## Concrete worlds and states used to exercise the theorems -/

/-- A POSIX world: the installation root and the pynode library exist, the
library loads and exports all six symbols, and the only Python region is
`B.X`.  Wrapper `p` answers with the handles `100 + p`, `200 + p`, `300 + p`. -/
def posixWorld : World :=
  { windows := false
    executeCommand := fun _ => "/opt/nupic".toList
    pathExists := fun _ => true
    pathJoin := fun a b c => a ++ '/' :: b ++ '/' :: c
    LAZY := 1, GLOBAL := 256, LOCAL := 0, NOW := 2
    dlLoad := fun _ _ => .ok 1
    getSymbol := fun _ _ => some 7
    pyCreateSpec := fun name => if name = "B.X".toList then some 5 else none
    pyDestroySpec := fun _ => 0
    pyCreatePyNode := fun name _ _ => if name = "B.X".toList then some 6 else none
    pyDeserializePyNode := fun name _ _ => if name = "B.X".toList then some 8 else none
    wrapperCreateSpec := fun p => .ok (some (100 + p))
    wrapperCreateRegionImpl := fun p _ _ => .ok (200 + p)
    wrapperDeserializeRegionImpl := fun p _ _ => .ok (300 + p)
    toValueMap := fun _ _ _ _ => .ok 0
    newTestNode := 1, newVectorFileEffector := 2, newVectorFileSensor := 3 }

/-- The POSIX world with a pynode library that does not export `NTA_deserializePyNode`. -/
def worldWithoutDeserialize : World :=
  { posixWorld with
    getSymbol := fun _ name => if name = "NTA_deserializePyNode".toList then none else some 7 }

/-- The POSIX world in which `nupic.regions.Bar` is a Python region. -/
def worldWithBar : World :=
  { posixWorld with
    pyCreateSpec := fun name => if name = "nupic.regions.Bar".toList then some 5 else none }

/-- A library object with all entry points bound. -/
def boundLib : DynamicPythonLibrary :=
  { rootDir_ := "/opt/nupic".toList, pynodeLibrary_ := 1, initPython_ := some 7,
    finalizePython_ := some 7, createSpec_ := some 7, destroySpec_ := some 7,
    createPyNode_ := some 7, deserializePyNode_ := some 7 }

/-- The state after `getInstance`, `getSpec("TestNode")` and `getSpec("py.Bar")`
in `worldWithBar`: three registered wrappers, two cached specs, the library loaded. -/
def stateWithBar : Factory :=
  (getSpec worldWithBar
    (getSpec worldWithBar (getInstance worldWithBar Factory.initial) "TestNode".toList).st
    "py.Bar".toList).st

/-- The state after `registerCPPRegion("py.Foo", 9)` and `getSpec("py.Foo")`
from the initial state: a native wrapper registered under a name that starts
with `py.`, its spec cached, no library loaded. -/
def stateNativePy : Factory :=
  (getSpec posixWorld (registerCPPRegion Factory.initial "py.Foo".toList 9) "py.Foo".toList).st

/-- The state after `registerCPPRegion("py.Foo", 9)` and `getSpec("py.Foo")`
from `stateWithBar`: as `stateNativePy`, with the library loaded. -/
def stateNativePyLoaded : Factory :=
  (getSpec worldWithBar (registerCPPRegion stateWithBar "py.Foo".toList 9) "py.Foo".toList).st

/-- An owning region. -/
def ownerStub : Region := { id := 0, name := "owner".toList }

/-! ## Vocabulary of the specification -/

/-- The qualified name in the words of the specification: `candidate + "." +
bareName` if the candidate is non-empty, else `bareName` alone. -/
def qualifiedName (candidate bareName : CppString) : CppString :=
  if candidate = [] then bareName else candidate ++ '.' :: bareName

/-- Whether an event belongs to the construction of the `DynamicPythonLibrary`. -/
def Event.isLoaderEvent : Event → Bool
  | .executeCommand _ => true
  | .load _ _ => true
  | .getSymbol _ => true
  | .initPython => true
  | _ => false

/-- The wrapper an event is a call on, if it is a call on a wrapper. -/
def Event.wrapper : Event → Option ProvPtr
  | .wrapperCreateSpec p => some p
  | .wrapperCreateRegionImpl p _ _ => some p
  | .wrapperDeserializeRegionImpl p _ _ => some p
  | _ => none

/-- How many more times the Python runtime may be initialised from a state:
not at all once a library object exists, once otherwise. -/
def budget (s : Factory) : Nat := if s.pyLib_.isSome then 0 else 1

/-- A piece of the program that goes from `s` to `s1` with trace `log` keeps
an existing library and performs no loader event when there was one, and
calls `initPython_` at most as often as the budget it uses up. -/
def Once (s s1 : Factory) (log : List Event) : Prop :=
  (∀ lib, s.pyLib_ = some lib →
    s1.pyLib_ = some lib ∧ ∀ e ∈ log, e.isLoaderEvent = false) ∧
  log.count Event.initPython + budget s1 ≤ budget s

/-- A run that loads the library, cleans up, and uses Python regions again. -/
def exampleRun : List (World × Op) :=
  [(worldWithBar, Op.getInstance),
   (worldWithBar, Op.getSpec "py.Bar".toList),
   (worldWithBar, Op.cleanup),
   (worldWithBar, Op.getSpec "py.Bar".toList),
   (worldWithBar, Op.createRegionImpl "py.Bar".toList "{}".toList ownerStub),
   (worldWithBar, Op.deserializeRegionImpl "py.Bar".toList 0 ownerStub)]

/-! ## Lemmas on strings and maps -/

theorem StrMap.find_insert_self {V : Type} (m : StrMap V) (k : CppString) (v : V) :
    (m.insert k v).find k = some v := by
  induction m with
  | nil => simp [StrMap.insert, StrMap.find]
  | cons hd tl ih =>
    obtain ⟨k', v'⟩ := hd
    unfold StrMap.insert
    split
    · simp [StrMap.find]
    · split
      · simp [StrMap.find]
      · rename_i h1 h2
        simp [StrMap.find, h2, ih]

theorem StrMap.find_insert_ne {V : Type} (m : StrMap V) (k k2 : CppString) (v : V)
    (h : k ≠ k2) : (m.insert k v).find k2 = m.find k2 := by
  induction m with
  | nil => simp [StrMap.insert, StrMap.find, h]
  | cons hd tl ih =>
    obtain ⟨k', v'⟩ := hd
    unfold StrMap.insert
    split
    · simp [StrMap.find, h]
    · split
      · rename_i h1 h2
        subst h2
        simp [StrMap.find, h]
      · simp [StrMap.find, ih]

theorem strFind_zero_iff (s pat : CppString) :
    strFind s pat = some 0 ↔ pat.isPrefixOf s = true := by
  cases s with
  | nil => simp [strFind]
  | cons c s =>
    unfold strFind
    split
    · simp_all
    · rename_i h
      simp only [h]
      cases strFind s pat <;> simp

theorem cstr_idem (b : CppString) : cstr (cstr b) = cstr b := by
  unfold cstr
  induction b with
  | nil => rfl
  | cons c b ih =>
    by_cases h : (c != NUL) = true
    · simp only [List.takeWhile_cons, h, if_true, ih]
    · simp [List.takeWhile_cons, h]

theorem cstr_append_cstr (a b : CppString) : cstr (a ++ cstr b) = cstr (a ++ b) := by
  induction a with
  | nil => exact cstr_idem b
  | cons c a ih =>
    unfold cstr at ih ⊢
    simp only [List.cons_append, List.takeWhile_cons]
    split
    · rw [ih]
    · rfl

theorem cstr_of_not_mem (s : CppString) (h : NUL ∉ s) : cstr s = s := by
  unfold cstr
  rw [List.takeWhile_eq_self_iff]
  intro c hc
  simp only [bne_iff_ne, ne_eq]
  rintro rfl
  exact h hc

/-! ## Case analysis of the operations -/

theorem ensurePyLib_packages (w : World) (s : Factory) :
    (ensurePyLib w s).st.packages = s.packages := by
  unfold ensurePyLib; split; · rfl
  split <;> rfl

theorem ensurePyLib_cpp (w : World) (s : Factory) :
    (ensurePyLib w s).st.cpp_packages = s.cpp_packages := by
  unfold ensurePyLib; split; · rfl
  split <;> rfl

theorem ensurePyLib_cache (w : World) (s : Factory) :
    (ensurePyLib w s).st.nodespecCache_ = s.nodespecCache_ := by
  unfold ensurePyLib; split; · rfl
  split <;> rfl

theorem getSpec_cached (w : World) (s : Factory) (t : CppString) (ns : SpecPtr)
    (hc : s.nodespecCache_.find t = some ns) : getSpec w s t = ⟨.ok ns, s, []⟩ := by
  simp [getSpec, hc]

theorem getSpec_native (w : World) (s : Factory) (t : CppString) (wrapper : ProvPtr)
    (hc : s.nodespecCache_.find t = none) (hr : s.cpp_packages.find t = some wrapper) :
    getSpec w s t =
      match w.wrapperCreateSpec wrapper with
      | .error e => ⟨.error e, s, [Event.wrapperCreateSpec wrapper]⟩
      | .ok none => ⟨.error (.unableToGetNodeSpec t), s, [Event.wrapperCreateSpec wrapper]⟩
      | .ok (some ns) =>
        ⟨.ok ns, { s with nodespecCache_ := s.nodespecCache_.insert t ns },
         [Event.wrapperCreateSpec wrapper]⟩ := by
  simp [getSpec, hc, hr]

theorem getSpec_foreign (w : World) (s : Factory) (t : CppString)
    (hc : s.nodespecCache_.find t = none) (hr : s.cpp_packages.find t = none)
    (hp : strFind t pyMarker = some 0) :
    getSpec w s t =
      match (ensurePyLib w s).res with
      | .error e => ⟨.error e, (ensurePyLib w s).st, (ensurePyLib w s).log⟩
      | .ok lib =>
        match (getPySpec lib w t (ensurePyLib w s).st.packages).1 with
        | .error e =>
          ⟨.error e, (ensurePyLib w s).st,
           (ensurePyLib w s).log ++ (getPySpec lib w t (ensurePyLib w s).st.packages).2⟩
        | .ok ns =>
          ⟨.ok ns, { (ensurePyLib w s).st with
              nodespecCache_ := (ensurePyLib w s).st.nodespecCache_.insert t ns },
           (ensurePyLib w s).log ++ (getPySpec lib w t (ensurePyLib w s).st.packages).2⟩ := by
  simp [getSpec, hc, hr, hp]

theorem getSpec_unsupported (w : World) (s : Factory) (t : CppString)
    (hc : s.nodespecCache_.find t = none) (hr : s.cpp_packages.find t = none)
    (hp : strFind t pyMarker ≠ some 0) :
    getSpec w s t = ⟨.error (.getSpecUnsupportedNodeType t), s, []⟩ := by
  simp [getSpec, hc, hr, hp]

theorem getSpec_ok_find (w : World) (s : Factory) (t : CppString) (ns : SpecPtr)
    (h : (getSpec w s t).res = .ok ns) : (getSpec w s t).st.nodespecCache_.find t = some ns := by
  cases hc : s.nodespecCache_.find t with
  | some ns1 =>
    rw [getSpec_cached w s t ns1 hc] at h ⊢
    simp_all
  | none =>
    cases hr : s.cpp_packages.find t with
    | some wrapper =>
      rw [getSpec_native w s t wrapper hc hr] at h ⊢
      split at h <;> simp_all [StrMap.find_insert_self]
    | none =>
      by_cases hp : strFind t pyMarker = some 0
      · rw [getSpec_foreign w s t hc hr hp] at h ⊢
        split at h
        · simp_all
        · split at h <;> simp_all [StrMap.find_insert_self]
      · rw [getSpec_unsupported w s t hc hr hp] at h
        simp at h

/-! ## The spec cache is identity-stable -/

/-- C1: when `getSpec(t)` succeeds with the handle `ns`, an immediately
following `getSpec(t)`, in whatever world, returns the same handle `ns`, has
an empty trace (no wrapper `createSpec`, no bridge `createSpec`, nothing else)
and leaves the whole factory state, the spec cache included, as it was. -/
theorem getSpec_twice_same_handle (w w2 : World) (s : Factory) (nodeType : CppString)
    (ns : SpecPtr) (h : (getSpec w s nodeType).res = .ok ns) :
    getSpec w2 (getSpec w s nodeType).st nodeType =
      ⟨.ok ns, (getSpec w s nodeType).st, []⟩ :=
  getSpec_cached w2 _ nodeType ns (getSpec_ok_find w s nodeType ns h)

/-- C1, witness: `getSpec("TestNode")` after `getInstance` builds the spec 101
through the wrapper; the second call returns 101 with an empty trace. -/
theorem getSpec_twice_same_handle_witness :
    (getSpec posixWorld (getInstance posixWorld Factory.initial) "TestNode".toList).res =
      .ok 101 ∧
    (getSpec posixWorld (getInstance posixWorld Factory.initial) "TestNode".toList).log =
      [Event.wrapperCreateSpec 1] ∧
    getSpec posixWorld
        (getSpec posixWorld (getInstance posixWorld Factory.initial) "TestNode".toList).st
        "TestNode".toList =
      ⟨.ok 101,
       (getSpec posixWorld (getInstance posixWorld Factory.initial) "TestNode".toList).st, []⟩ :=
  ⟨by decide, by decide,
   getSpec_twice_same_handle posixWorld posixWorld (getInstance posixWorld Factory.initial)
     "TestNode".toList 101 (by decide)⟩

/-! ## The type resolver -/

theorem cstr_fullNodeType (p X : CppString) :
    cstr (fullNodeType p (pyMarker ++ X)) = cstr (qualifiedName p X) := by
  have hd : (pyMarker ++ X).drop 3 = X := rfl
  unfold fullNodeType qualifiedName
  rw [hd]
  cases p with
  | nil => simpa using cstr_idem X
  | cons c p =>
    have h := cstr_append_cstr (c :: p ++ ['.']) X
    simpa using h

theorem getPySpec_first_hit (lib : DynamicPythonLibrary) (w : World) (t : CppString)
    (f : FnPtr) (hb : lib.createSpec_ = some f) (pre : List CppString) (c : CppString)
    (post : List CppString) (ns : SpecPtr)
    (hpre : ∀ p ∈ pre, w.pyCreateSpec (cstr (fullNodeType p t)) = none)
    (hc : w.pyCreateSpec (cstr (fullNodeType c t)) = some ns) :
    getPySpec lib w t (pre ++ c :: post) =
      (.ok ns, (pre ++ [c]).map (fun p => Event.bridgeCreateSpec (cstr (fullNodeType p t)))) := by
  induction pre with
  | nil => simp [getPySpec, DynamicPythonLibrary.createSpec, hb, hc]
  | cons a pre ih =>
    have ha := hpre a (by simp)
    have ih2 := ih (fun p hp => hpre p (by simp [hp]))
    simp [getPySpec, DynamicPythonLibrary.createSpec, hb, ha, ih2]

theorem getPySpec_all_miss (lib : DynamicPythonLibrary) (w : World) (t : CppString)
    (f : FnPtr) (hb : lib.createSpec_ = some f) (ps : List CppString)
    (hps : ∀ p ∈ ps, w.pyCreateSpec (cstr (fullNodeType p t)) = none) :
    getPySpec lib w t ps =
      (.error (.pythonModuleNotFound t),
       ps.map (fun p => Event.bridgeCreateSpec (cstr (fullNodeType p t)))) := by
  induction ps with
  | nil => simp [getPySpec]
  | cons a ps ih =>
    have ha := hps a (by simp)
    have ih2 := ih (fun p hp => hps p (by simp [hp]))
    simp [getPySpec, DynamicPythonLibrary.createSpec, hb, ha, ih2]

theorem createPyNode_first_hit (lib : DynamicPythonLibrary) (w : World) (t : CppString)
    (vm : ValueMap) (region : Region)
    (f : FnPtr) (hb : lib.createPyNode_ = some f) (pre : List CppString) (c : CppString)
    (post : List CppString) (node : ImplPtr)
    (hpre : ∀ p ∈ pre, w.pyCreatePyNode (cstr (fullNodeType p t)) vm region = none)
    (hc : w.pyCreatePyNode (cstr (fullNodeType c t)) vm region = some node) :
    createPyNode lib w t vm region (pre ++ c :: post) =
      (.ok node, (pre ++ [c]).map
        (fun p => Event.bridgeCreatePyNode (cstr (fullNodeType p t)) vm region.id)) := by
  induction pre with
  | nil => simp [createPyNode, DynamicPythonLibrary.createPyNode, hb, hc]
  | cons a pre ih =>
    have ha := hpre a (by simp)
    have ih2 := ih (fun p hp => hpre p (by simp [hp]))
    simp [createPyNode, DynamicPythonLibrary.createPyNode, hb, ha, ih2]

theorem createPyNode_all_miss (lib : DynamicPythonLibrary) (w : World) (t : CppString)
    (vm : ValueMap) (region : Region)
    (f : FnPtr) (hb : lib.createPyNode_ = some f) (ps : List CppString)
    (hps : ∀ p ∈ ps, w.pyCreatePyNode (cstr (fullNodeType p t)) vm region = none) :
    createPyNode lib w t vm region ps =
      (.error (.unableToCreateRegion region.name t),
       ps.map (fun p => Event.bridgeCreatePyNode (cstr (fullNodeType p t)) vm region.id)) := by
  induction ps with
  | nil => simp [createPyNode]
  | cons a ps ih =>
    have ha := hps a (by simp)
    have ih2 := ih (fun p hp => hps p (by simp [hp]))
    simp [createPyNode, DynamicPythonLibrary.createPyNode, hb, ha, ih2]

theorem deserializePyNode_first_hit (lib : DynamicPythonLibrary) (w : World) (t : CppString)
    (bundle : BundleIO) (region : Region)
    (f : FnPtr) (hb : lib.deserializePyNode_ = some f) (pre : List CppString) (c : CppString)
    (post : List CppString) (node : ImplPtr)
    (hpre : ∀ p ∈ pre, w.pyDeserializePyNode (cstr (fullNodeType p t)) bundle region = none)
    (hc : w.pyDeserializePyNode (cstr (fullNodeType c t)) bundle region = some node) :
    deserializePyNode lib w t bundle region (pre ++ c :: post) =
      (.ok node, (pre ++ [c]).map
        (fun p => Event.bridgeDeserializePyNode (cstr (fullNodeType p t)) bundle region.id)) := by
  induction pre with
  | nil => simp [deserializePyNode, DynamicPythonLibrary.deserializePyNode, hb, hc]
  | cons a pre ih =>
    have ha := hpre a (by simp)
    have ih2 := ih (fun p hp => hpre p (by simp [hp]))
    simp [deserializePyNode, DynamicPythonLibrary.deserializePyNode, hb, ha, ih2]

/-- C2: for every search path `pre ++ c :: post`, every bare name `X` and a
library whose three entry points are bound, each resolver (`getPySpec`,
`createPyNode`, `deserializePyNode`) run on the type name `"py." + X`, when the
bridge answers null for every candidate of `pre` and non-null for `c`, returns
the answer for `c`, and its trace is exactly one bridge call per candidate of
`pre ++ [c]`, in that order, so none for a candidate of `post`.  The name of a
call is the qualified name of the specification, `candidate + "." + X` or `X`
alone for the empty candidate, passed as a C string; that C string is the
qualified name itself when neither the candidate nor `X` holds a NUL. -/
theorem resolver_first_candidate_wins (lib : DynamicPythonLibrary) (w : World)
    (pre : List CppString) (c : CppString) (post : List CppString) (X : CppString)
    (f1 f2 f3 : FnPtr) (h1 : lib.createSpec_ = some f1) (h2 : lib.createPyNode_ = some f2)
    (h3 : lib.deserializePyNode_ = some f3) :
    (∀ ns, (∀ p ∈ pre, w.pyCreateSpec (cstr (qualifiedName p X)) = none) →
      w.pyCreateSpec (cstr (qualifiedName c X)) = some ns →
      getPySpec lib w (pyMarker ++ X) (pre ++ c :: post) =
        (.ok ns, (pre ++ [c]).map (fun p => Event.bridgeCreateSpec (cstr (qualifiedName p X))))) ∧
    (∀ vm region node,
      (∀ p ∈ pre, w.pyCreatePyNode (cstr (qualifiedName p X)) vm region = none) →
      w.pyCreatePyNode (cstr (qualifiedName c X)) vm region = some node →
      createPyNode lib w (pyMarker ++ X) vm region (pre ++ c :: post) =
        (.ok node, (pre ++ [c]).map
          (fun p => Event.bridgeCreatePyNode (cstr (qualifiedName p X)) vm region.id))) ∧
    (∀ bundle region node,
      (∀ p ∈ pre, w.pyDeserializePyNode (cstr (qualifiedName p X)) bundle region = none) →
      w.pyDeserializePyNode (cstr (qualifiedName c X)) bundle region = some node →
      deserializePyNode lib w (pyMarker ++ X) bundle region (pre ++ c :: post) =
        (.ok node, (pre ++ [c]).map
          (fun p => Event.bridgeDeserializePyNode (cstr (qualifiedName p X)) bundle region.id))) ∧
    (∀ p, NUL ∉ p → NUL ∉ X → cstr (qualifiedName p X) = qualifiedName p X) := by
  refine ⟨?_, ?_, ?_, ?_⟩
  · intro ns hpre hc
    have h := getPySpec_first_hit lib w (pyMarker ++ X) f1 h1 pre c post ns
      (fun p hp => by rw [cstr_fullNodeType]; exact hpre p hp)
      (by rw [cstr_fullNodeType]; exact hc)
    simpa only [cstr_fullNodeType] using h
  · intro vm region node hpre hc
    have h := createPyNode_first_hit lib w (pyMarker ++ X) vm region f2 h2 pre c post node
      (fun p hp => by rw [cstr_fullNodeType]; exact hpre p hp)
      (by rw [cstr_fullNodeType]; exact hc)
    simpa only [cstr_fullNodeType] using h
  · intro bundle region node hpre hc
    have h := deserializePyNode_first_hit lib w (pyMarker ++ X) bundle region f3 h3 pre c post
      node (fun p hp => by rw [cstr_fullNodeType]; exact hpre p hp)
      (by rw [cstr_fullNodeType]; exact hc)
    simpa only [cstr_fullNodeType] using h
  · intro p hp hX
    apply cstr_of_not_mem
    unfold qualifiedName
    split
    · exact hX
    · have hdot : NUL ≠ '.' := by decide
      simp [hp, hX, hdot]

/-- C2, witness: search path `[A, B]`, type name `py.X`, only `B.X` exists:
each resolver calls the bridge for `A.X`, then for `B.X`, and returns the
answer for `B.X`. -/
theorem resolver_first_candidate_wins_witness :
    getPySpec boundLib posixWorld (pyMarker ++ "X".toList) ["A".toList, "B".toList] =
      (.ok 5, [Event.bridgeCreateSpec "A.X".toList, Event.bridgeCreateSpec "B.X".toList]) ∧
    createPyNode boundLib posixWorld (pyMarker ++ "X".toList) 0 ownerStub
        ["A".toList, "B".toList] =
      (.ok 6, [Event.bridgeCreatePyNode "A.X".toList 0 0,
               Event.bridgeCreatePyNode "B.X".toList 0 0]) ∧
    deserializePyNode boundLib posixWorld (pyMarker ++ "X".toList) 0 ownerStub
        ["A".toList, "B".toList] =
      (.ok 8, [Event.bridgeDeserializePyNode "A.X".toList 0 0,
               Event.bridgeDeserializePyNode "B.X".toList 0 0]) :=
  ⟨(resolver_first_candidate_wins boundLib posixWorld ["A".toList] "B".toList [] "X".toList
      7 7 7 rfl rfl rfl).1 5 (by decide) (by decide),
   (resolver_first_candidate_wins boundLib posixWorld ["A".toList] "B".toList [] "X".toList
      7 7 7 rfl rfl rfl).2.1 0 ownerStub 6 (by decide) (by decide),
   (resolver_first_candidate_wins boundLib posixWorld ["A".toList] "B".toList [] "X".toList
      7 7 7 rfl rfl rfl).2.2.1 0 ownerStub 8 (by decide) (by decide)⟩

/-! ## The constructor of the library -/

theorem bindSymbols_ok (w : World) (rootDir : CppString) (p : LibPtr)
    (lib : DynamicPythonLibrary)
    (h : (DynamicPythonLibrary.bindSymbols w rootDir p).1 = .ok lib) :
    lib.initPython_.isSome = true ∧ lib.finalizePython_.isSome = true ∧
    lib.createSpec_.isSome = true ∧ lib.destroySpec_.isSome = true ∧
    lib.createPyNode_.isSome = true := by
  unfold DynamicPythonLibrary.bindSymbols at h
  simp only [] at h
  split_ifs at h
  simp_all
  cases h
  simp_all [Option.isSome_iff_ne_none]

theorem new_ok (w : World) (lib : DynamicPythonLibrary)
    (h : (DynamicPythonLibrary.new w).1 = .ok lib) :
    lib.initPython_.isSome = true ∧ lib.finalizePython_.isSome = true ∧
    lib.createSpec_.isSome = true ∧ lib.destroySpec_.isSome = true ∧
    lib.createPyNode_.isSome = true := by
  unfold DynamicPythonLibrary.new at h
  simp only [] at h
  split_ifs at h
  split at h
  · simp at h
  · exact bindSymbols_ok w _ _ lib h

/-! ## The invariant of the reachable states -/

theorem StrMap.find_insert_isSome {V : Type} (m : StrMap V) (k t : CppString) (v : V)
    (h : (m.find t).isSome = true) : ((m.insert k v).find t).isSome = true := by
  by_cases hk : k = t
  · subst hk; simp [StrMap.find_insert_self]
  · rw [StrMap.find_insert_ne m k t v hk]; exact h

theorem ensurePyLib_res_ok (w : World) (s : Factory) (lib : DynamicPythonLibrary)
    (h : (ensurePyLib w s).res = .ok lib) : (ensurePyLib w s).st.pyLib_ = some lib := by
  unfold ensurePyLib at h ⊢
  split
  · simp_all
  · split <;> simp_all

theorem ensurePyLib_pyLib (w : World) (s : Factory) (lib : DynamicPythonLibrary)
    (h : (ensurePyLib w s).st.pyLib_ = some lib) :
    s.pyLib_ = some lib ∨ (s.pyLib_ = none ∧ (DynamicPythonLibrary.new w).1 = .ok lib) := by
  unfold ensurePyLib at h
  split at h
  · left; simp_all
  · split at h
    · simp_all
    · right; simp_all

theorem getPySpec_ok_mem (lib : DynamicPythonLibrary) (w : World) (t : CppString)
    (ps : List CppString) (ns : SpecPtr) (h : (getPySpec lib w t ps).1 = .ok ns) :
    ∃ p ∈ ps, w.pyCreateSpec (cstr (fullNodeType p t)) = some ns := by
  induction ps with
  | nil => simp [getPySpec] at h
  | cons a ps ih =>
    unfold getPySpec at h
    unfold DynamicPythonLibrary.createSpec at h
    cases hb : lib.createSpec_ with
    | none => simp [hb] at h
    | some f =>
      simp only [hb] at h
      cases hc : w.pyCreateSpec (cstr (fullNodeType a t)) with
      | none =>
        simp only [hc] at h
        obtain ⟨p, hp, hq⟩ := ih h
        exact ⟨p, by simp [hp], hq⟩
      | some ns1 =>
        simp only [hc] at h
        refine ⟨a, by simp, ?_⟩
        simp_all

theorem inv_ensurePyLib (P : World → Prop) (w : World) (s : Factory) (h : s.Inv P) :
    (ensurePyLib w s).st.Inv P := by
  refine ⟨?_, ?_⟩
  · rw [ensurePyLib_cache, ensurePyLib_cpp, ensurePyLib_packages]
    exact h.1
  · intro lib hl
    rcases ensurePyLib_pyLib w s lib hl with h1 | ⟨_, h2⟩
    · exact h.2 lib h1
    · have hn := new_ok w lib h2
      exact ⟨hn.2.2.1, hn.2.2.2.2, hn.2.2.2.1⟩

theorem inv_insert_registered (P : World → Prop) (s : Factory) (t : CppString) (ns : SpecPtr)
    (h : s.Inv P) (hr : (s.cpp_packages.find t).isSome = true) :
    Factory.Inv P { s with nodespecCache_ := s.nodespecCache_.insert t ns } := by
  refine ⟨?_, h.2⟩
  intro t1 ns1 hf
  by_cases ht : t = t1
  · subst ht; exact Or.inl hr
  · rw [StrMap.find_insert_ne _ _ _ _ ht] at hf
    exact h.1 t1 ns1 hf

theorem inv_insert_resolved (P : World → Prop) (w : World) (s : Factory) (t : CppString)
    (ns : SpecPtr) (h : s.Inv P) (hw : P w) (hp : strFind t pyMarker = some 0)
    (hres : ∃ p ∈ s.packages, w.pyCreateSpec (cstr (fullNodeType p t)) = some ns) :
    Factory.Inv P { s with nodespecCache_ := s.nodespecCache_.insert t ns } := by
  refine ⟨?_, h.2⟩
  intro t1 ns1 hf
  by_cases ht : t = t1
  · subst ht
    rw [StrMap.find_insert_self] at hf
    cases hf
    exact Or.inr ⟨hp, w, hw, hres⟩
  · rw [StrMap.find_insert_ne _ _ _ _ ht] at hf
    exact h.1 t1 ns1 hf

theorem inv_getSpec (P : World → Prop) (w : World) (s : Factory) (t : CppString)
    (h : s.Inv P) (hw : P w) : (getSpec w s t).st.Inv P := by
  cases hc : s.nodespecCache_.find t with
  | some ns1 => rw [getSpec_cached w s t ns1 hc]; exact h
  | none =>
    cases hr : s.cpp_packages.find t with
    | some wrapper =>
      rw [getSpec_native w s t wrapper hc hr]
      split
      · exact h
      · exact h
      · exact inv_insert_registered P s t _ h (by simp [hr])
    | none =>
      by_cases hp : strFind t pyMarker = some 0
      · rw [getSpec_foreign w s t hc hr hp]
        have he := inv_ensurePyLib P w s h
        split
        · exact he
        · split
          · exact he
          · rename_i ns hok
            exact inv_insert_resolved P w _ t ns he hw hp (getPySpec_ok_mem _ w t _ ns hok)
      · rw [getSpec_unsupported w s t hc hr hp]; exact h

theorem createRegionImpl_st (w : World) (s : Factory) (t params : CppString) (region : Region) :
    (createRegionImpl w s t params region).st = (getSpec w s t).st ∨
    (createRegionImpl w s t params region).st = (ensurePyLib w (getSpec w s t).st).st := by
  unfold createRegionImpl
  simp only []
  split
  · exact Or.inl rfl
  · split
    · exact Or.inl rfl
    · split
      · exact Or.inl rfl
      · split
        · split
          · exact Or.inr rfl
          · exact Or.inr rfl
        · exact Or.inl rfl

theorem deserializeRegionImpl_st (w : World) (s : Factory) (t : CppString) (bundle : BundleIO)
    (region : Region) :
    (deserializeRegionImpl w s t bundle region).st = s ∨
    (deserializeRegionImpl w s t bundle region).st = (ensurePyLib w s).st := by
  unfold deserializeRegionImpl
  split
  · exact Or.inl rfl
  · split
    · simp only []
      split
      · exact Or.inr rfl
      · exact Or.inr rfl
    · exact Or.inl rfl

theorem inv_cleanup (P : World → Prop) (w : World) (s : Factory) (h : s.Inv P) :
    (cleanup w s).st.Inv P := by
  unfold cleanup
  split
  · exact h
  · exact ⟨fun t ns hf => by simp [StrMap.find] at hf, h.2⟩

theorem inv_registerCPPRegion (P : World → Prop) (s : Factory) (name : CppString)
    (wrapper : ProvPtr) (h : s.Inv P) : (registerCPPRegion s name wrapper).Inv P := by
  refine ⟨?_, h.2⟩
  intro t ns hf
  rcases h.1 t ns hf with h1 | h2
  · exact Or.inl (StrMap.find_insert_isSome _ _ _ _ h1)
  · exact Or.inr h2

theorem inv_registerPyRegionPackage (P : World → Prop) (s : Factory) (path : CppString)
    (h : s.Inv P) : (registerPyRegionPackage s path).Inv P := by
  refine ⟨?_, h.2⟩
  intro t ns hf
  rcases h.1 t ns hf with h1 | ⟨hp, w, hw, p, hmem, hq⟩
  · exact Or.inl h1
  · exact Or.inr ⟨hp, w, hw, p, by simp [registerPyRegionPackage, hmem], hq⟩

theorem inv_getInstance (P : World → Prop) (w : World) (s : Factory) (h : s.Inv P) :
    (getInstance w s).Inv P := by
  unfold getInstance
  split
  · refine ⟨?_, h.2⟩
    intro t ns hf
    rcases h.1 t ns hf with h1 | h2
    · exact Or.inl (StrMap.find_insert_isSome _ _ _ _
        (StrMap.find_insert_isSome _ _ _ _ (StrMap.find_insert_isSome _ _ _ _ h1)))
    · exact Or.inr h2
  · exact h

theorem inv_step (P : World → Prop) (w : World) (s : Factory) (op : Op) (h : s.Inv P)
    (hw : P w) : (step w s op).1.Inv P := by
  cases op with
  | getInstance => exact inv_getInstance P w s h
  | registerCPPRegion name wrapper => exact inv_registerCPPRegion P s name wrapper h
  | registerPyRegionPackage path => exact inv_registerPyRegionPackage P s path h
  | getSpec t => exact inv_getSpec P w s t h hw
  | createRegionImpl t params region =>
    show (createRegionImpl w s t params region).st.Inv P
    rcases createRegionImpl_st w s t params region with h1 | h1 <;> rw [h1]
    · exact inv_getSpec P w s t h hw
    · exact inv_ensurePyLib P w _ (inv_getSpec P w s t h hw)
  | deserializeRegionImpl t bundle region =>
    show (deserializeRegionImpl w s t bundle region).st.Inv P
    rcases deserializeRegionImpl_st w s t bundle region with h1 | h1 <;> rw [h1]
    · exact h
    · exact inv_ensurePyLib P w s h
  | cleanup => exact inv_cleanup P w s h

theorem inv_initial (P : World → Prop) : Factory.initial.Inv P :=
  ⟨fun t ns hf => by simp [Factory.initial, StrMap.find] at hf,
   fun lib hl => by simp [Factory.initial] at hl⟩

theorem Reachable.inv {P : World → Prop} {s : Factory} (h : Reachable P s) : s.Inv P := by
  induction h with
  | initial => exact inv_initial P
  | step w op _ hw _ ih => exact inv_step P w _ op ih hw

/-! ## Unsupported and unresolved type names -/

theorem new_log_loader (w : World) :
    ∀ e ∈ (DynamicPythonLibrary.new w).2, e.isLoaderEvent = true := by
  unfold DynamicPythonLibrary.new DynamicPythonLibrary.bindSymbols
  simp only []
  split_ifs
  · simp [Event.isLoaderEvent]
  · simp [Event.isLoaderEvent]
  · split
    · simp [Event.isLoaderEvent]
    · split_ifs <;> simp [Event.isLoaderEvent]

theorem ensurePyLib_log_loader (w : World) (s : Factory) :
    ∀ e ∈ (ensurePyLib w s).log, e.isLoaderEvent = true := by
  unfold ensurePyLib
  split
  · simp
  · have h := new_log_loader w
    split <;> simp_all

theorem reachable_cache_miss (w : World) (s : Factory) (t : CppString)
    (hs : Reachable (fun w1 => w1.pyCreateSpec = w.pyCreateSpec) s)
    (hr : s.cpp_packages.find t = none)
    (hnull : ∀ p ∈ s.packages, w.pyCreateSpec (cstr (fullNodeType p t)) = none) :
    s.nodespecCache_.find t = none := by
  cases hc : s.nodespecCache_.find t with
  | none => rfl
  | some ns =>
    rcases hs.inv.1 t ns hc with h1 | ⟨_, w1, hw1, p, hp, hq⟩
    · simp [hr] at h1
    · rw [hw1, hnull p hp] at hq
      simp at hq

theorem reachable_bound (P : World → Prop) (s : Factory) (lib : DynamicPythonLibrary)
    (hs : Reachable P s) (hl : s.pyLib_ = some lib) :
    lib.createSpec_.isSome = true ∧ lib.createPyNode_.isSome = true ∧
    lib.destroySpec_.isSome = true :=
  hs.inv.2 lib hl

theorem strFind_marker_append (X : CppString) : strFind (pyMarker ++ X) pyMarker = some 0 := by
  rw [strFind_zero_iff]
  simp [pyMarker]

/-- C3: let the type name `"py." + X` have no native registration, let the
bridge answer null for the qualified name of every package of the search
path, and let the library be there (already loaded, or loadable in this
world).  In every state the program can reach while the bridge answers
`createSpec` as it does now (and in any other state that has no cached spec
for the name and no library object with a null `createSpec_`), `getSpec` and
`createRegionImpl` both throw `Matching Python module for py.X not found`,
naming the original type name; their trace is what bringing the library up
took (loader events only) followed by exactly one bridge call per package, in
search-path order; and the state left behind has the spec cache it started
with. -/
theorem exhausted_search_path_raises (w : World) (s : Factory) (X nodeParams : CppString)
    (region : Region) (lib : DynamicPythonLibrary)
    (hstate : Reachable (fun w1 => w1.pyCreateSpec = w.pyCreateSpec) s ∨
      (s.nodespecCache_.find (pyMarker ++ X) = none ∧
        ∀ l, s.pyLib_ = some l → l.createSpec_.isSome = true))
    (hr : s.cpp_packages.find (pyMarker ++ X) = none)
    (hlib : (ensurePyLib w s).res = .ok lib)
    (hnull : ∀ p ∈ s.packages, w.pyCreateSpec (cstr (qualifiedName p X)) = none) :
    getSpec w s (pyMarker ++ X) =
      ⟨.error (.pythonModuleNotFound (pyMarker ++ X)), (ensurePyLib w s).st,
       (ensurePyLib w s).log ++
         s.packages.map (fun p => Event.bridgeCreateSpec (cstr (qualifiedName p X)))⟩ ∧
    createRegionImpl w s (pyMarker ++ X) nodeParams region =
      ⟨.error (.pythonModuleNotFound (pyMarker ++ X)), (ensurePyLib w s).st,
       (ensurePyLib w s).log ++
         s.packages.map (fun p => Event.bridgeCreateSpec (cstr (qualifiedName p X)))⟩ ∧
    (ensurePyLib w s).st.nodespecCache_ = s.nodespecCache_ ∧
    (∀ e ∈ (ensurePyLib w s).log, e.isLoaderEvent = true) := by
  have hnull2 : ∀ p ∈ s.packages,
      w.pyCreateSpec (cstr (fullNodeType p (pyMarker ++ X))) = none :=
    fun p hp => by rw [cstr_fullNodeType]; exact hnull p hp
  have hc : s.nodespecCache_.find (pyMarker ++ X) = none := by
    rcases hstate with h | h
    · exact reachable_cache_miss w s _ h hr hnull2
    · exact h.1
  have hb : lib.createSpec_.isSome = true := by
    rcases ensurePyLib_pyLib w s lib (ensurePyLib_res_ok w s lib hlib) with h1 | ⟨_, h1⟩
    · rcases hstate with h | h
      · exact (reachable_bound _ s lib h h1).1
      · exact h.2 lib h1
    · exact (new_ok w lib h1).2.2.1
  obtain ⟨f, hf⟩ := Option.isSome_iff_exists.mp hb
  have hmiss := getPySpec_all_miss lib w (pyMarker ++ X) f hf s.packages hnull2
  simp only [cstr_fullNodeType] at hmiss
  have hg : getSpec w s (pyMarker ++ X) =
      ⟨.error (.pythonModuleNotFound (pyMarker ++ X)), (ensurePyLib w s).st,
       (ensurePyLib w s).log ++
         s.packages.map (fun p => Event.bridgeCreateSpec (cstr (qualifiedName p X)))⟩ := by
    rw [getSpec_foreign w s _ hc hr (strFind_marker_append X)]
    simp only [hlib, ensurePyLib_packages, hmiss]
  refine ⟨hg, ?_, ensurePyLib_cache w s, ensurePyLib_log_loader w s⟩
  unfold createRegionImpl
  simp only [hg]

/-- C3, witness: the type name `py.Foo` with no matching Python module and no
library loaded yet; first with the search path `["nupic.regions"]`, where the
one candidate `nupic.regions.Foo` is tried, then in the initial state of the
program, where the two default packages are tried in order. -/
theorem exhausted_search_path_raises_witness :
    ((createRegionImpl posixWorld { Factory.initial with packages := ["nupic.regions".toList] }
        (pyMarker ++ "Foo".toList) "{}".toList ownerStub).res =
        .error (.pythonModuleNotFound "py.Foo".toList) ∧
      (createRegionImpl posixWorld { Factory.initial with packages := ["nupic.regions".toList] }
        (pyMarker ++ "Foo".toList) "{}".toList ownerStub).log.filter
          (fun e => !e.isLoaderEvent) =
        [Event.bridgeCreateSpec "nupic.regions.Foo".toList]) ∧
    ((getSpec posixWorld Factory.initial (pyMarker ++ "Foo".toList)).res =
        .error (.pythonModuleNotFound "py.Foo".toList) ∧
      (getSpec posixWorld Factory.initial (pyMarker ++ "Foo".toList)).log.filter
          (fun e => !e.isLoaderEvent) =
        [Event.bridgeCreateSpec "nupic.regions.Foo".toList,
         Event.bridgeCreateSpec "nupic.regions.extra.Foo".toList]) := by
  have h1 := (exhausted_search_path_raises posixWorld
    { Factory.initial with packages := ["nupic.regions".toList] } "Foo".toList "{}".toList
    ownerStub boundLib (Or.inr (by decide)) (by decide) (by decide) (by decide)).2.1
  have h2 := (exhausted_search_path_raises posixWorld Factory.initial "Foo".toList "{}".toList
    ownerStub boundLib (Or.inl Reachable.initial) (by decide) (by decide) (by decide)).1
  rw [h1, h2]
  decide

/-- C4: in every reachable state, for a type name that neither starts with
`py.` nor is a key of `cpp_packages`, `getSpec` and `createRegionImpl` throw
`getSpec() -- Unsupported node type`, `deserializeRegionImpl` throws
`Unsupported node type`, and each of them has an empty trace (no library
construction, no call on a wrapper or on the bridge) and leaves the whole
state, spec cache and registry included, as it was. -/
theorem unsupported_type_raises (w : World) (s : Factory) (t nodeParams : CppString)
    (bundle : BundleIO) (region : Region) (hs : Reachable (fun _ => True) s)
    (hp : ¬ pyMarker <+: t) (hr : s.cpp_packages.find t = none) :
    getSpec w s t = ⟨.error (.getSpecUnsupportedNodeType t), s, []⟩ ∧
    createRegionImpl w s t nodeParams region =
      ⟨.error (.getSpecUnsupportedNodeType t), s, []⟩ ∧
    deserializeRegionImpl w s t bundle region = ⟨.error (.unsupportedNodeType t), s, []⟩ := by
  have hp1 : pyMarker.isPrefixOf t = false := by
    rw [Bool.eq_false_iff]
    intro h
    exact hp (List.isPrefixOf_iff_prefix.mp h)
  have hp2 : strFind t pyMarker ≠ some 0 := by
    rw [Ne, strFind_zero_iff, hp1]; simp
  have hc : s.nodespecCache_.find t = none := by
    cases hc : s.nodespecCache_.find t with
    | none => rfl
    | some ns =>
      rcases hs.inv.1 t ns hc with h1 | ⟨h2, _⟩
      · simp [hr] at h1
      · exact absurd h2 hp2
  have hg := getSpec_unsupported w s t hc hr hp2
  refine ⟨hg, ?_, ?_⟩
  · unfold createRegionImpl
    simp only [hg]
  · unfold deserializeRegionImpl
    simp [hr, startsWith, hp1]

/-- C4, witness: the state after `getInstance` and the type name `Unknown`. -/
theorem unsupported_type_raises_witness :
    (getSpec posixWorld (getInstance posixWorld Factory.initial) "Unknown".toList).res =
      .error (.getSpecUnsupportedNodeType "Unknown".toList) ∧
    (createRegionImpl posixWorld (getInstance posixWorld Factory.initial) "Unknown".toList
      "{}".toList ownerStub).res = .error (.getSpecUnsupportedNodeType "Unknown".toList) ∧
    (deserializeRegionImpl posixWorld (getInstance posixWorld Factory.initial) "Unknown".toList
      0 ownerStub).res = .error (.unsupportedNodeType "Unknown".toList) := by
  have h := unsupported_type_raises posixWorld (getInstance posixWorld Factory.initial)
    "Unknown".toList "{}".toList 0 ownerStub
    (Reachable.step posixWorld Op.getInstance Reachable.initial trivial rfl)
    (by decide) (by decide)
  rw [h.1, h.2.1, h.2.2]
  exact ⟨rfl, rfl, rfl⟩

/-! ## Cleanup -/

theorem destroyNodespecs_log (w : World) (pyLib : Option DynamicPythonLibrary)
    (m : StrMap SpecPtr) :
    ∀ e ∈ (destroyNodespecs w pyLib m).2,
      (∃ name, e = Event.bridgeDestroySpec name) ∨ (∃ ns, e = Event.deleteSpec ns) := by
  induction m with
  | nil => simp [destroyNodespecs]
  | cons hd tl ih =>
    obtain ⟨first, second⟩ := hd
    unfold destroyNodespecs
    split
    · cases pyLib with
      | none => simp
      | some lib =>
        simp only [DynamicPythonLibrary.destroySpec]
        cases lib.destroySpec_ with
        | none => simp
        | some f =>
          simp only [List.singleton_append, List.mem_cons]
          rintro e (rfl | he)
          · exact Or.inl ⟨_, rfl⟩
          · exact ih e he
    · simp only [List.mem_cons]
      rintro e (rfl | he)
      · exact Or.inr ⟨_, rfl⟩
      · exact ih e he

theorem cleanup_log (w : World) (s : Factory) :
    ∀ e ∈ (cleanup w s).log,
      (∃ name, e = Event.bridgeDestroySpec name) ∨ (∃ ns, e = Event.deleteSpec ns) ∨
      (∃ p, e = Event.deleteWrapper p) := by
  have h := destroyNodespecs_log w s.pyLib_ s.nodespecCache_
  unfold cleanup
  split
  · rename_i e l heq
    rw [heq] at h
    intro ev hev
    rcases h ev hev with h1 | h1
    · exact Or.inl h1
    · exact Or.inr (Or.inl h1)
  · rename_i u l heq
    rw [heq] at h
    intro ev hev
    simp only [List.mem_append] at hev
    rcases hev with hev | hev
    · rcases h ev hev with h1 | h1
      · exact Or.inl h1
      · exact Or.inr (Or.inl h1)
    · simp only [destroyWrappers, List.mem_map] at hev
      obtain ⟨a, _, rfl⟩ := hev
      exact Or.inr (Or.inr ⟨_, rfl⟩)

theorem cleanup_pyLib (w : World) (s : Factory) : (cleanup w s).st.pyLib_ = s.pyLib_ := by
  unfold cleanup
  split <;> rfl

theorem cleanup_packages (w : World) (s : Factory) : (cleanup w s).st.packages = s.packages := by
  unfold cleanup
  split <;> rfl

theorem cleanup_log_not_loader (w : World) (s : Factory) :
    ∀ e ∈ (cleanup w s).log, e.isLoaderEvent = false := by
  intro e he
  rcases cleanup_log w s e he with ⟨_, rfl⟩ | ⟨_, rfl⟩ | ⟨_, rfl⟩ <;> rfl

/-- C6: whenever `cleanup` completes, the spec cache and the registry are
empty afterwards, `pyLib_` is the very value it was before (the same library
if there was one, none if there was none), the search path is unchanged, and
the trace of `cleanup` holds no `finalizePython` call and no event of a
library construction. -/
theorem cleanup_keeps_library (w : World) (s : Factory) (h : (cleanup w s).res = .ok ()) :
    (cleanup w s).st.nodespecCache_ = [] ∧
    (cleanup w s).st.cpp_packages = [] ∧
    (cleanup w s).st.pyLib_ = s.pyLib_ ∧
    (cleanup w s).st.packages = s.packages ∧
    Event.finalizePython ∉ (cleanup w s).log ∧
    (∀ e ∈ (cleanup w s).log, e.isLoaderEvent = false) := by
  refine ⟨?_, ?_, cleanup_pyLib w s, cleanup_packages w s, ?_, cleanup_log_not_loader w s⟩
  · unfold cleanup at h ⊢
    split
    · simp_all
    · rfl
  · unfold cleanup at h ⊢
    split
    · simp_all
    · rfl
  · intro hmem
    rcases cleanup_log w s _ hmem with ⟨_, h1⟩ | ⟨_, h1⟩ | ⟨_, h1⟩ <;> cases h1

/-- C6, witness: `cleanup` in `stateWithBar`, where the registry holds the
built-in regions, the cache a native and a Python spec, and the library is loaded. -/
theorem cleanup_keeps_library_witness :
    (cleanup worldWithBar stateWithBar).res = .ok () ∧
    ((cleanup worldWithBar stateWithBar).st.nodespecCache_ = [] ∧
     (cleanup worldWithBar stateWithBar).st.cpp_packages = [] ∧
     (cleanup worldWithBar stateWithBar).st.pyLib_ = stateWithBar.pyLib_ ∧
     (cleanup worldWithBar stateWithBar).st.packages = stateWithBar.packages ∧
     Event.finalizePython ∉ (cleanup worldWithBar stateWithBar).log ∧
     (∀ e ∈ (cleanup worldWithBar stateWithBar).log, e.isLoaderEvent = false)) :=
  ⟨by decide, cleanup_keeps_library worldWithBar stateWithBar (by decide)⟩

/-! ## Registration -/

theorem getSpec_cpp (w : World) (s : Factory) (t : CppString) :
    (getSpec w s t).st.cpp_packages = s.cpp_packages := by
  cases hc : s.nodespecCache_.find t with
  | some ns1 => rw [getSpec_cached w s t ns1 hc]
  | none =>
    cases hr : s.cpp_packages.find t with
    | some wrapper =>
      rw [getSpec_native w s t wrapper hc hr]
      split <;> rfl
    | none =>
      by_cases hp : strFind t pyMarker = some 0
      · rw [getSpec_foreign w s t hc hr hp]
        split
        · exact ensurePyLib_cpp w s
        · split
          · exact ensurePyLib_cpp w s
          · exact ensurePyLib_cpp w s
      · rw [getSpec_unsupported w s t hc hr hp]

theorem getSpec_registered_log (w : World) (s : Factory) (t : CppString) (wrapper : ProvPtr)
    (hr : s.cpp_packages.find t = some wrapper) :
    (getSpec w s t).log = [] ∨ (getSpec w s t).log = [Event.wrapperCreateSpec wrapper] := by
  cases hc : s.nodespecCache_.find t with
  | some ns1 => rw [getSpec_cached w s t ns1 hc]; exact Or.inl rfl
  | none =>
    rw [getSpec_native w s t wrapper hc hr]
    split <;> exact Or.inr rfl

theorem createRegionImpl_registered (w : World) (s : Factory) (t nodeParams : CppString)
    (region : Region) (wrapper : ProvPtr) (hr : s.cpp_packages.find t = some wrapper) :
    createRegionImpl w s t nodeParams region =
      match (getSpec w s t).res with
      | .error e => ⟨.error e, (getSpec w s t).st, (getSpec w s t).log⟩
      | .ok ns =>
        match w.toValueMap nodeParams ns t region.name with
        | .error e =>
          ⟨.error e, (getSpec w s t).st, (getSpec w s t).log ++ [Event.toValueMap nodeParams ns]⟩
        | .ok vm =>
          ⟨w.wrapperCreateRegionImpl wrapper vm region, (getSpec w s t).st,
           (getSpec w s t).log ++ [Event.toValueMap nodeParams ns] ++
             [Event.wrapperCreateRegionImpl wrapper vm region.id]⟩ := by
  have hr2 : (getSpec w s t).st.cpp_packages.find t = some wrapper := by
    rw [getSpec_cpp]; exact hr
  unfold createRegionImpl
  simp only []
  split
  · rfl
  · split
    · rfl
    · simp only [hr2]

/-- C7: take any state, call `registerCPPRegion(n, p1)`, then possibly
`getSpec(n)` (in any world), then `registerCPPRegion(n, p2)`.  Afterwards the
registry maps `n` to `p2` and every other key to what it was mapped to in the
beginning; in the trace of a following `createRegionImpl(n, params, owner)`
every call on a wrapper is a call on `p2`; when that call returns a handle,
the handle is the value of `p2`'s `createRegionImpl` and that call is in the
trace; and it does return the value of `p2`'s `createRegionImpl` whenever
`getSpec(n)` and the parameter parser succeed. -/
theorem register_twice_latest_wins (w0 w : World) (s : Factory) (n nodeParams : CppString)
    (p1 p2 : ProvPtr) (region : Region) (between : Bool) :
    let s1 := registerCPPRegion s n p1
    let sm := if between then (getSpec w0 s1 n).st else s1
    let s2 := registerCPPRegion sm n p2
    s2.cpp_packages.find n = some p2 ∧
    (∀ k, k ≠ n → s2.cpp_packages.find k = s.cpp_packages.find k) ∧
    (∀ e ∈ (createRegionImpl w s2 n nodeParams region).log,
      ∀ p, e.wrapper = some p → p = p2) ∧
    (∀ mn, (createRegionImpl w s2 n nodeParams region).res = .ok mn →
      ∃ vm, w.wrapperCreateRegionImpl p2 vm region = .ok mn ∧
        Event.wrapperCreateRegionImpl p2 vm region.id ∈
          (createRegionImpl w s2 n nodeParams region).log) ∧
    (∀ ns vm, (getSpec w s2 n).res = .ok ns →
      w.toValueMap nodeParams ns n region.name = .ok vm →
      (createRegionImpl w s2 n nodeParams region).res =
        w.wrapperCreateRegionImpl p2 vm region) := by
  intro s1 sm s2
  have hsm : sm.cpp_packages = s1.cpp_packages := by
    show (if between then (getSpec w0 s1 n).st else s1).cpp_packages = s1.cpp_packages
    cases between
    · rfl
    · simp only [if_true]; exact getSpec_cpp w0 s1 n
  have h2 : s2.cpp_packages.find n = some p2 := StrMap.find_insert_self _ _ _
  have hcr := createRegionImpl_registered w s2 n nodeParams region p2 h2
  have hlog := getSpec_registered_log w s2 n p2 h2
  refine ⟨h2, ?_, ?_, ?_, ?_⟩
  · intro k hk
    show (sm.cpp_packages.insert n p2).find k = s.cpp_packages.find k
    rw [StrMap.find_insert_ne _ _ _ _ (Ne.symm hk), hsm]
    exact StrMap.find_insert_ne _ _ _ _ (Ne.symm hk)
  · rw [hcr]
    intro e he p hp
    split at he
    · rcases hlog with h | h <;> rw [h] at he <;> simp at he
      subst he; simpa [Event.wrapper] using hp.symm
    · split at he
      · rcases hlog with h | h <;> rw [h] at he <;> simp at he
        · subst he; simp [Event.wrapper] at hp
        · rcases he with rfl | rfl
          · simpa [Event.wrapper] using hp.symm
          · simp [Event.wrapper] at hp
      · rcases hlog with h | h <;> rw [h] at he <;> simp at he
        · rcases he with rfl | rfl
          · simp [Event.wrapper] at hp
          · simpa [Event.wrapper] using hp.symm
        · rcases he with rfl | rfl | rfl
          · simpa [Event.wrapper] using hp.symm
          · simp [Event.wrapper] at hp
          · simpa [Event.wrapper] using hp.symm
  · rw [hcr]
    intro mn hmn
    split at hmn
    · simp at hmn
    · split at hmn
      · simp at hmn
      · rename_i vm _
        exact ⟨vm, hmn, by simp⟩
  · intro ns vm hg hv
    rw [hcr]
    simp only [hg, hv]

/-- C7, witness: `TestNode` registered with wrapper 11, `getSpec` caches the
spec 111 of wrapper 11, then `TestNode` is registered with wrapper 22;
`createRegionImpl` returns 222, the handle of wrapper 22. -/
theorem register_twice_latest_wins_witness :
    (createRegionImpl posixWorld
      (registerCPPRegion
        (getSpec posixWorld (registerCPPRegion Factory.initial "TestNode".toList 11)
          "TestNode".toList).st "TestNode".toList 22)
      "TestNode".toList "{}".toList ownerStub).res = .ok 222 :=
  (register_twice_latest_wins posixWorld posixWorld Factory.initial "TestNode".toList
    "{}".toList 11 22 ownerStub true).2.2.2.2 111 0 (by decide) (by decide)

/-! ## Release of the cached specs by origin -/

/-- C5: a wrapper registered under the name `py.Foo` builds the spec 109 of
that name (the trace of `getSpec` is the wrapper's `createSpec`, no bridge
call), yet `cleanup` takes the entry for a Python spec.  With no library
loaded it dereferences the empty `pyLib_` and deletes nothing; with the library
loaded it hands `py.Foo` to the bridge's `destroySpec` and never deletes the
spec 109, while the native spec 101 of `TestNode` is deleted.  Both states are
reached from the initial state by calls of the factory. -/
theorem cleanup_releases_native_py_name_through_bridge :
    getSpec posixWorld (registerCPPRegion Factory.initial "py.Foo".toList 9) "py.Foo".toList =
      ⟨.ok 109, stateNativePy, [Event.wrapperCreateSpec 9]⟩ ∧
    (cleanup posixWorld stateNativePy).res = .error .nullPyLib ∧
    (cleanup posixWorld stateNativePy).log = [] ∧
    getSpec worldWithBar (registerCPPRegion stateWithBar "py.Foo".toList 9) "py.Foo".toList =
      ⟨.ok 109, stateNativePyLoaded, [Event.wrapperCreateSpec 9]⟩ ∧
    (cleanup worldWithBar stateNativePyLoaded).res = .ok () ∧
    (cleanup worldWithBar stateNativePyLoaded).log =
      [Event.deleteSpec 101, Event.bridgeDestroySpec "py.Bar".toList,
       Event.bridgeDestroySpec "py.Foo".toList,
       Event.deleteWrapper 1, Event.deleteWrapper 2, Event.deleteWrapper 3,
       Event.deleteWrapper 9] ∧
    Reachable (fun _ => True) stateNativePy ∧
    Reachable (fun _ => True) stateNativePyLoaded := by
  refine ⟨?_, ?_, ?_, ?_, ?_, ?_, ?_, ?_⟩
  · decide
  · decide
  · decide
  · decide
  · decide
  · decide
  · have h1 : Reachable (fun _ => True) _ :=
      Reachable.step posixWorld (Op.registerCPPRegion "py.Foo".toList 9)
        Reachable.initial trivial rfl
    exact Reachable.step posixWorld (Op.getSpec "py.Foo".toList) h1 trivial (by decide)
  · have h1 : Reachable (fun _ => True) _ :=
      Reachable.step worldWithBar Op.getInstance Reachable.initial trivial rfl
    have h2 := Reachable.step worldWithBar (Op.getSpec "TestNode".toList) h1 trivial
      (by decide)
    have h3 := Reachable.step worldWithBar (Op.getSpec "py.Bar".toList) h2 trivial
      (by decide)
    have h4 := Reachable.step worldWithBar (Op.registerCPPRegion "py.Foo".toList 9) h3
      trivial rfl
    exact Reachable.step worldWithBar (Op.getSpec "py.Foo".toList) h4 trivial (by decide)

/-! ## Symbol checks of the constructor -/

theorem bindSymbols_deserialize_unchecked (w : World) (rootDir : CppString) (p : LibPtr)
    (f1 f2 f3 f4 f5 : FnPtr)
    (h1 : w.getSymbol p "NTA_initPython".toList = some f1)
    (h2 : w.getSymbol p "NTA_finalizePython".toList = some f2)
    (h3 : w.getSymbol p "NTA_createPyNode".toList = some f3)
    (h4 : w.getSymbol p "NTA_createSpec".toList = some f4)
    (h5 : w.getSymbol p "NTA_destroySpec".toList = some f5) :
    (DynamicPythonLibrary.bindSymbols w rootDir p).1 =
      .ok { rootDir_ := rootDir, pynodeLibrary_ := p, initPython_ := some f1,
            finalizePython_ := some f2, createSpec_ := some f4, destroySpec_ := some f5,
            createPyNode_ := some f3,
            deserializePyNode_ := w.getSymbol p "NTA_deserializePyNode".toList } ∧
    Event.initPython ∈ (DynamicPythonLibrary.bindSymbols w rootDir p).2 := by
  unfold DynamicPythonLibrary.bindSymbols
  simp only [String.toList] at h1 h2 h3 h4 h5 ⊢
  simp [h1, h2, h3, h4, h5]

theorem bindSymbols_checked (w : World) (rootDir : CppString) (p : LibPtr)
    (sym : CppString)
    (hsym : sym ∈ ["NTA_initPython".toList, "NTA_finalizePython".toList,
      "NTA_createPyNode".toList, "NTA_createSpec".toList, "NTA_destroySpec".toList])
    (hmiss : w.getSymbol p sym = none)
    (hothers : ∀ other ∈ ["NTA_initPython".toList, "NTA_finalizePython".toList,
      "NTA_createPyNode".toList, "NTA_createSpec".toList, "NTA_destroySpec".toList],
      other ≠ sym → (w.getSymbol p other).isSome = true) :
    (DynamicPythonLibrary.bindSymbols w rootDir p).1 =
      .error (.symbolNotFound sym (pynodeFilename w.windows)) ∧
    Event.initPython ∉ (DynamicPythonLibrary.bindSymbols w rootDir p).2 := by
  simp only [List.mem_cons, List.mem_singleton, List.not_mem_nil, or_false] at hsym
  simp only [String.toList] at hsym hothers ⊢
  have ho1 := hothers "NTA_initPython".data (by simp)
  have ho2 := hothers "NTA_finalizePython".data (by simp)
  have ho3 := hothers "NTA_createPyNode".data (by simp)
  have ho4 := hothers "NTA_createSpec".data (by simp)
  have ho5 := hothers "NTA_destroySpec".data (by simp)
  rcases hsym with rfl | rfl | rfl | rfl | rfl
  · unfold DynamicPythonLibrary.bindSymbols
    simp [hmiss]
  · have g1 := ho1 (by decide)
    unfold DynamicPythonLibrary.bindSymbols
    simp only [String.toList]
    simp [hmiss, Option.isSome_iff_ne_none.mp g1]
  · have g1 := ho1 (by decide)
    have g2 := ho2 (by decide)
    unfold DynamicPythonLibrary.bindSymbols
    simp only [String.toList]
    simp [hmiss, Option.isSome_iff_ne_none.mp g1, Option.isSome_iff_ne_none.mp g2]
  · have g1 := ho1 (by decide)
    have g2 := ho2 (by decide)
    have g3 := ho3 (by decide)
    unfold DynamicPythonLibrary.bindSymbols
    simp only [String.toList]
    simp [hmiss, Option.isSome_iff_ne_none.mp g1, Option.isSome_iff_ne_none.mp g2,
      Option.isSome_iff_ne_none.mp g3]
  · have g1 := ho1 (by decide)
    have g2 := ho2 (by decide)
    have g3 := ho3 (by decide)
    have g4 := ho4 (by decide)
    unfold DynamicPythonLibrary.bindSymbols
    simp only [String.toList]
    simp [hmiss, Option.isSome_iff_ne_none.mp g1, Option.isSome_iff_ne_none.mp g2,
      Option.isSome_iff_ne_none.mp g3, Option.isSome_iff_ne_none.mp g4]

/-- C8: with a pynode library that exports every entry point except
`NTA_deserializePyNode`, the constructor does not throw: it returns a library
object whose `deserializePyNode_` is null, after calling `initPython_`; the
first `deserializeRegionImpl` of a Python region then calls through the null
pointer. -/
theorem missing_deserialize_symbol_is_not_detected :
    (DynamicPythonLibrary.new worldWithoutDeserialize).1 =
      .ok { boundLib with deserializePyNode_ := none } ∧
    Event.initPython ∈ (DynamicPythonLibrary.new worldWithoutDeserialize).2 ∧
    (deserializeRegionImpl worldWithoutDeserialize Factory.initial "py.X".toList 0
      ownerStub).res = .error (.nullFunctionPointer "NTA_deserializePyNode".toList) := by
  refine ⟨?_, ?_, ?_⟩ <;> decide

/-! ## Binding policy of the library load -/

/-- C10, as claimed: in the POSIX world (`LAZY = 1`, `NOW = 2`, `GLOBAL = 256`,
so `GLOBAL | NOW = 258`) the constructor calls `DynamicLibrary::load` with the
mode 257 and makes no call with the mode `GLOBAL | NOW`. -/
theorem load_mode_is_not_global_now :
    Event.load "/opt/nupic/nupic/libcpp_region.so".toList 257 ∈
      (DynamicPythonLibrary.new posixWorld).2 ∧
    (posixWorld.GLOBAL ||| posixWorld.NOW) = 258 ∧
    Event.load "/opt/nupic/nupic/libcpp_region.so".toList
      (posixWorld.GLOBAL ||| posixWorld.NOW) ∉ (DynamicPythonLibrary.new posixWorld).2 := by
  refine ⟨?_, ?_, ?_⟩ <;> decide

/-- C10, amended: every `DynamicLibrary::load` of the constructor is made with
the mode `GLOBAL | LAZY`, and the constructor makes that call, on the joined
library path, whenever the installation root and the library file exist. -/
theorem load_mode_is_global_lazy (w : World) :
    (∀ (libName : CppString) (mode : Nat),
      Event.load libName mode ∈ (DynamicPythonLibrary.new w).2 →
      mode = w.GLOBAL ||| w.LAZY) ∧
    (w.pathExists (w.executeCommand (pythonCommand w.windows)) = true →
      w.pathExists (w.pathJoin (w.executeCommand (pythonCommand w.windows)) "nupic".toList
        (pynodeFilename w.windows)) = true →
      Event.load (w.pathJoin (w.executeCommand (pythonCommand w.windows)) "nupic".toList
        (pynodeFilename w.windows)) (w.GLOBAL ||| w.LAZY) ∈ (DynamicPythonLibrary.new w).2) := by
  constructor
  · intro libName mode
    unfold DynamicPythonLibrary.new DynamicPythonLibrary.bindSymbols
    simp only []
    split_ifs
    · simp
    · simp
    · split
      · simp only [loadMode]
        simp
      · simp only [loadMode]
        split_ifs <;> simp
  · intro h1 h2
    unfold DynamicPythonLibrary.new
    simp only [h1, h2, loadMode, Bool.not_true, Bool.false_eq_true, if_false]
    split <;> simp

/-- C10, witness: the load of the POSIX world. -/
theorem load_mode_is_global_lazy_witness :
    Event.load "/opt/nupic/nupic/libcpp_region.so".toList 257 ∈
      (DynamicPythonLibrary.new posixWorld).2 ∧
    257 = posixWorld.GLOBAL ||| posixWorld.LAZY :=
  ⟨by decide,
   (load_mode_is_global_lazy posixWorld).1 "/opt/nupic/nupic/libcpp_region.so".toList 257
     (by decide)⟩

/-! ## The library is constructed at most once -/

theorem count_initPython_of_neutral (log : List Event)
    (hl : ∀ e ∈ log, e.isLoaderEvent = false) : log.count Event.initPython = 0 := by
  rw [List.count_eq_zero]
  intro hmem
  have := hl _ hmem
  simp [Event.isLoaderEvent] at this

theorem once_neutral (s s1 : Factory) (log : List Event) (hp : s1.pyLib_ = s.pyLib_)
    (hl : ∀ e ∈ log, e.isLoaderEvent = false) : Once s s1 log := by
  refine ⟨fun lib h => ⟨by rw [hp, h], hl⟩, ?_⟩
  rw [count_initPython_of_neutral log hl]
  simp [budget, hp]

theorem once_trans {s s1 s2 : Factory} {l1 l2 : List Event} (h1 : Once s s1 l1)
    (h2 : Once s1 s2 l2) : Once s s2 (l1 ++ l2) := by
  refine ⟨?_, ?_⟩
  · intro lib hl
    obtain ⟨ha, hb⟩ := h1.1 lib hl
    obtain ⟨hc, hd⟩ := h2.1 lib ha
    refine ⟨hc, ?_⟩
    intro e he
    rcases List.mem_append.mp he with he | he
    · exact hb e he
    · exact hd e he
  · have := h1.2
    have := h2.2
    rw [List.count_append]
    omega

theorem new_count (w : World) :
    (DynamicPythonLibrary.new w).2.count Event.initPython ≤ 1 ∧
    (∀ e, (DynamicPythonLibrary.new w).1 = .error e →
      (DynamicPythonLibrary.new w).2.count Event.initPython = 0) := by
  unfold DynamicPythonLibrary.new DynamicPythonLibrary.bindSymbols
  simp only []
  split_ifs
  · simp [List.count_cons]
  · simp [List.count_cons]
  · split
    · simp [List.count_cons]
    · split_ifs <;> simp [List.count_cons]

theorem once_ensurePyLib (w : World) (s : Factory) :
    Once s (ensurePyLib w s).st (ensurePyLib w s).log := by
  unfold ensurePyLib
  cases hl : s.pyLib_ with
  | some lib => exact once_neutral s s [] rfl (by simp)
  | none =>
    have hn := new_count w
    simp only []
    split
    · rename_i e l heq
      rw [heq] at hn
      refine ⟨fun lib h => by simp [hl] at h, ?_⟩
      have := hn.2 e rfl
      simp only [] at this
      simp [budget, hl, this]
    · rename_i lib l heq
      rw [heq] at hn
      refine ⟨fun lib h => by simp [hl] at h, ?_⟩
      have := hn.1
      simp only [] at this
      simp [budget, hl]
      exact this

theorem getPySpec_log_neutral (lib : DynamicPythonLibrary) (w : World) (t : CppString)
    (ps : List CppString) : ∀ e ∈ (getPySpec lib w t ps).2, e.isLoaderEvent = false := by
  induction ps with
  | nil => simp [getPySpec]
  | cons a ps ih =>
    unfold getPySpec DynamicPythonLibrary.createSpec
    cases lib.createSpec_ with
    | none => simp
    | some f =>
      simp only []
      cases w.pyCreateSpec (cstr (fullNodeType a t)) with
      | none =>
        simp only [List.singleton_append, List.mem_cons]
        rintro e (rfl | he)
        · rfl
        · exact ih e he
      | some ns => simp [Event.isLoaderEvent]

theorem createPyNode_log_neutral (lib : DynamicPythonLibrary) (w : World) (t : CppString)
    (vm : ValueMap) (region : Region) (ps : List CppString) :
    ∀ e ∈ (createPyNode lib w t vm region ps).2, e.isLoaderEvent = false := by
  induction ps with
  | nil => simp [createPyNode]
  | cons a ps ih =>
    unfold createPyNode DynamicPythonLibrary.createPyNode
    cases lib.createPyNode_ with
    | none => simp
    | some f =>
      simp only []
      cases w.pyCreatePyNode (cstr (fullNodeType a t)) vm region with
      | none =>
        simp only [List.singleton_append, List.mem_cons]
        rintro e (rfl | he)
        · rfl
        · exact ih e he
      | some ns => simp [Event.isLoaderEvent]

theorem deserializePyNode_log_neutral (lib : DynamicPythonLibrary) (w : World)
    (t : CppString) (bundle : BundleIO) (region : Region) (ps : List CppString) :
    ∀ e ∈ (deserializePyNode lib w t bundle region ps).2, e.isLoaderEvent = false := by
  induction ps with
  | nil => simp [deserializePyNode]
  | cons a ps ih =>
    unfold deserializePyNode DynamicPythonLibrary.deserializePyNode
    cases lib.deserializePyNode_ with
    | none => simp
    | some f =>
      simp only []
      cases w.pyDeserializePyNode (cstr (fullNodeType a t)) bundle region with
      | none =>
        simp only [List.singleton_append, List.mem_cons]
        rintro e (rfl | he)
        · rfl
        · exact ih e he
      | some ns => simp [Event.isLoaderEvent]

theorem once_getSpec (w : World) (s : Factory) (t : CppString) :
    Once s (getSpec w s t).st (getSpec w s t).log := by
  cases hc : s.nodespecCache_.find t with
  | some ns1 =>
    rw [getSpec_cached w s t ns1 hc]
    exact once_neutral _ _ _ rfl (by simp)
  | none =>
    cases hr : s.cpp_packages.find t with
    | some wrapper =>
      rw [getSpec_native w s t wrapper hc hr]
      split <;> exact once_neutral _ _ _ rfl (by simp [Event.isLoaderEvent])
    | none =>
      by_cases hp : strFind t pyMarker = some 0
      · rw [getSpec_foreign w s t hc hr hp]
        have he := once_ensurePyLib w s
        split
        · exact he
        · split
          · exact once_trans he (once_neutral _ _ _ rfl (getPySpec_log_neutral _ _ _ _))
          · exact once_trans he (once_neutral _ _ _ rfl (getPySpec_log_neutral _ _ _ _))
      · rw [getSpec_unsupported w s t hc hr hp]
        exact once_neutral _ _ _ rfl (by simp)

theorem once_createRegionImpl (w : World) (s : Factory) (t nodeParams : CppString)
    (region : Region) :
    Once s (createRegionImpl w s t nodeParams region).st
      (createRegionImpl w s t nodeParams region).log := by
  have hg := once_getSpec w s t
  unfold createRegionImpl
  simp only []
  split
  · exact hg
  · rename_i ns _
    have h1 : Once s (getSpec w s t).st
        ((getSpec w s t).log ++ [Event.toValueMap nodeParams ns]) :=
      once_trans hg (once_neutral _ _ _ rfl (by simp [Event.isLoaderEvent]))
    split
    · exact h1
    · split
      · exact once_trans h1 (once_neutral _ _ _ rfl (by simp [Event.isLoaderEvent]))
      · split
        · have h2 := once_trans h1 (once_ensurePyLib w (getSpec w s t).st)
          split
          · exact h2
          · exact once_trans h2 (once_neutral _ _ _ rfl (createPyNode_log_neutral _ _ _ _ _ _))
        · exact h1

theorem once_deserializeRegionImpl (w : World) (s : Factory) (t : CppString)
    (bundle : BundleIO) (region : Region) :
    Once s (deserializeRegionImpl w s t bundle region).st
      (deserializeRegionImpl w s t bundle region).log := by
  unfold deserializeRegionImpl
  split
  · exact once_neutral _ _ _ rfl (by simp [Event.isLoaderEvent])
  · split
    · have he := once_ensurePyLib w s
      simp only []
      split
      · exact he
      · exact once_trans he (once_neutral _ _ _ rfl (deserializePyNode_log_neutral _ _ _ _ _ _))
    · exact once_neutral _ _ _ rfl (by simp)

theorem once_step (w : World) (s : Factory) (op : Op) :
    Once s (step w s op).1 (step w s op).2.1 := by
  cases op with
  | getInstance =>
    refine once_neutral _ _ _ ?_ (by simp [step])
    show (getInstance w s).pyLib_ = s.pyLib_
    unfold getInstance
    split <;> rfl
  | registerCPPRegion name wrapper => exact once_neutral _ _ _ rfl (by simp [step])
  | registerPyRegionPackage path => exact once_neutral _ _ _ rfl (by simp [step])
  | getSpec t => exact once_getSpec w s t
  | createRegionImpl t params region => exact once_createRegionImpl w s t params region
  | deserializeRegionImpl t bundle region => exact once_deserializeRegionImpl w s t bundle region
  | cleanup => exact once_neutral _ _ _ (cleanup_pyLib w s) (cleanup_log_not_loader w s)

theorem once_run (ops : List (World × Op)) :
    ∀ s, Once s (run s ops).1 (run s ops).2 := by
  induction ops with
  | nil => intro s; exact once_neutral _ _ _ rfl (by simp [run])
  | cons hd tl ih =>
    intro s
    obtain ⟨w, op⟩ := hd
    have hs := once_step w s op
    unfold run
    rcases hstep : step w s op with ⟨s1, l, ub⟩
    rw [hstep] at hs
    cases ub with
    | true => exact hs
    | false => exact once_trans hs (ih s1)

/-- C9: over every sequence of calls into the factory, each in a world of its
own: once a library object exists it is the value of `pyLib_` after the whole
sequence and the sequence performs no event of a library construction (no
installation query, no load, no symbol lookup, no `initPython_`); from any
state `initPython_` is called at most once; and `getSpec`, `createRegionImpl`
and `deserializeRegionImpl` on a registered name leave `pyLib_` as it was and
perform no event of a library construction. -/
theorem library_constructed_at_most_once :
    (∀ (s : Factory) (ops : List (World × Op)) (lib : DynamicPythonLibrary),
      s.pyLib_ = some lib →
      (run s ops).1.pyLib_ = some lib ∧ ∀ e ∈ (run s ops).2, e.isLoaderEvent = false) ∧
    (∀ (s : Factory) (ops : List (World × Op)),
      (run s ops).2.count Event.initPython ≤ 1) ∧
    (∀ (w : World) (s : Factory) (t nodeParams : CppString) (bundle : BundleIO)
      (region : Region) (wrapper : ProvPtr), s.cpp_packages.find t = some wrapper →
      ((getSpec w s t).st.pyLib_ = s.pyLib_ ∧
        ∀ e ∈ (getSpec w s t).log, e.isLoaderEvent = false) ∧
      ((createRegionImpl w s t nodeParams region).st.pyLib_ = s.pyLib_ ∧
        ∀ e ∈ (createRegionImpl w s t nodeParams region).log, e.isLoaderEvent = false) ∧
      ((deserializeRegionImpl w s t bundle region).st.pyLib_ = s.pyLib_ ∧
        ∀ e ∈ (deserializeRegionImpl w s t bundle region).log, e.isLoaderEvent = false)) := by
  refine ⟨fun s ops lib h => (once_run ops s).1 lib h, ?_, ?_⟩
  · intro s ops
    have h := (once_run ops s).2
    have hb : budget s ≤ 1 := by unfold budget; split <;> simp
    omega
  · intro w s t nodeParams bundle region wrapper hr
    have hgp : (getSpec w s t).st.pyLib_ = s.pyLib_ := by
      cases hc : s.nodespecCache_.find t with
      | some ns1 => rw [getSpec_cached w s t ns1 hc]
      | none =>
        rw [getSpec_native w s t wrapper hc hr]
        split <;> rfl
    have hgl : ∀ e ∈ (getSpec w s t).log, e.isLoaderEvent = false := by
      rcases getSpec_registered_log w s t wrapper hr with h | h <;> rw [h] <;>
        simp [Event.isLoaderEvent]
    refine ⟨⟨hgp, hgl⟩, ?_, ?_⟩
    · rw [createRegionImpl_registered w s t nodeParams region wrapper hr]
      split
      · exact ⟨hgp, hgl⟩
      · split
        · refine ⟨hgp, ?_⟩
          intro e he
          rcases List.mem_append.mp he with he | he
          · exact hgl e he
          · simp at he; subst he; rfl
        · refine ⟨hgp, ?_⟩
          intro e he
          rcases List.mem_append.mp he with he | he
          · rcases List.mem_append.mp he with he | he
            · exact hgl e he
            · simp at he; subst he; rfl
          · simp at he; subst he; rfl
    · unfold deserializeRegionImpl
      simp [hr, Event.isLoaderEvent]

/-- C9, witness: in `exampleRun` the library is loaded by the first
`getSpec("py.Bar")`; `cleanup` and the later calls on Python regions keep it,
and `initPython_` is called once in the whole run. -/
theorem library_constructed_at_most_once_witness :
    (run Factory.initial exampleRun).1.pyLib_ = some boundLib ∧
    (run Factory.initial exampleRun).2.count Event.initPython = 1 ∧
    (run Factory.initial exampleRun).2.count Event.initPython ≤ 1 ∧
    ((run stateWithBar exampleRun).1.pyLib_ = some boundLib ∧
      ∀ e ∈ (run stateWithBar exampleRun).2, e.isLoaderEvent = false) :=
  ⟨by decide, by decide,
   library_constructed_at_most_once.2.1 Factory.initial exampleRun,
   library_constructed_at_most_once.1 stateWithBar exampleRun boundLib (by decide)⟩

end RegionImplFactory
